/-
Verification of the node-banana workflow tool.

Shallow embedding of the repository's code:
  * `src/unnamed/part_000`          — the cropper zustand store
  * `src/unnamed/part_004`          — the image-generation API route (Gemini / Azure FLUX / Azure GPT Image)
  * `src/src/app/api/llm/route.ts`  — the LLM API route (Google / OpenAI)
  * `src/unnamed/part_006`          — the save-generation API route
  * `src/src/app/api/load-generation/route.ts` — the load-generation API route
together with a model of the workflow execution engine (graph store,
connection validator, input resolver, dependency scheduler, run controller),
whose implementation is not part of the available sources; those definitions
are modelled from the specification document and are marked as such.

JavaScript conventions used throughout the embedding:
  * a possibly-absent field is an `Option`;
  * JS string truthiness (`!s` is true for `undefined`/`""`) is `optTruthy`;
  * awaited results of external calls (fetch, provider SDKs) are explicit
    inputs of the embedded function, a thrown JS value is a `Thrown`;
  * JS numbers are embedded as `Rat` where only exact comparisons on the
    stored values matter (the cropper store).
-/
import Mathlib

namespace NodeBanana

/-- JS truthiness of a possibly-absent string: `undefined` and `""` are falsy. -/
def optTruthy : Option String → Bool
  | none => false
  | some s => !s.isEmpty

/-! ## Cropper store (`src/unnamed/part_000`) -/

/-- `CropRegion` from `src/unnamed/part_000`.  Coordinates are JS numbers,
embedded as rationals: the invariant proved below only inspects the exact
values stored by the store's own guard, so the embedding is insensitive to
floating-point rounding. -/
structure CropRegion where
  id : String
  x : Rat
  y : Rat
  width : Rat
  height : Rat
  deriving Repr, DecidableEq

/-- A cell of a detected grid (from `@/utils/gridSplitter`, whose source is
not available; only the list of cells and their count are observed by the
store, so the cell payload is modelled as its geometry). -/
structure GridCell where
  x : Rat
  y : Rat
  width : Rat
  height : Rat
  deriving Repr, DecidableEq

/-- Result of grid detection (from `@/utils/gridSplitter`); the store only
reads `cells.length`. -/
structure GridDetectionResult where
  cells : List GridCell
  deriving Repr, DecidableEq

/-- `CropMode` from `src/unnamed/part_000`. -/
inductive CropMode where
  | grid
  | freeform
  deriving Repr, DecidableEq

/-- The state fields of the cropper store (`CropperStore` in
`src/unnamed/part_000`).  `selectedCells : Set<number>` is embedded as a
duplicate-free list with set-like update operations. -/
structure CropperState where
  isOpen : Bool
  sourceImage : Option String
  sourceNodeId : Option String
  imageDimensions : Option (Rat × Rat)
  gridResult : Option GridDetectionResult
  selectedCells : List Nat
  customRows : Nat
  customCols : Nat
  cropMode : CropMode
  cropRegions : List CropRegion
  currentRegion : Option CropRegion
  selectedRegionId : Option String
  extractedImages : List String
  deriving Repr, DecidableEq

/-- `initialState` from `src/unnamed/part_000`. -/
def initialState : CropperState where
  isOpen := false
  sourceImage := none
  sourceNodeId := none
  imageDimensions := none
  gridResult := none
  selectedCells := []
  customRows := 2
  customCols := 2
  cropMode := .grid
  cropRegions := []
  currentRegion := none
  selectedRegionId := none
  extractedImages := []

/-- `openModal` from `src/unnamed/part_000`: opens the modal and resets the
crop state (`sourceNodeId || null` keeps `undefined` as `null`). -/
def openModal (s : CropperState) (sourceImage : String) (sourceNodeId : Option String) :
    CropperState :=
  { s with
    isOpen := true
    sourceImage := some sourceImage
    sourceNodeId := sourceNodeId
    gridResult := none
    selectedCells := []
    cropRegions := []
    currentRegion := none
    selectedRegionId := none
    extractedImages := [] }

/-- `closeModal` from `src/unnamed/part_000`. -/
def closeModal (s : CropperState) : CropperState :=
  { s with isOpen := false }

/-- `setImageDimensions` from `src/unnamed/part_000`. -/
def setImageDimensions (s : CropperState) (d : Rat × Rat) : CropperState :=
  { s with imageDimensions := some d }

/-- `setGridResult` from `src/unnamed/part_000`: stores the result and, when
it is non-null, auto-selects all of its cells. -/
def setGridResult (s : CropperState) (result : Option GridDetectionResult) : CropperState :=
  match result with
  | none => { s with gridResult := none }
  | some r =>
      { s with
        gridResult := some r
        selectedCells := List.range r.cells.length }

/-- `setCustomGrid` from `src/unnamed/part_000`. -/
def setCustomGrid (s : CropperState) (rows cols : Nat) : CropperState :=
  { s with customRows := rows, customCols := cols }

/-- `toggleCellSelection` from `src/unnamed/part_000`. -/
def toggleCellSelection (s : CropperState) (index : Nat) : CropperState :=
  if s.selectedCells.contains index then
    { s with selectedCells := s.selectedCells.filter (· ≠ index) }
  else
    { s with selectedCells := s.selectedCells ++ [index] }

/-- `selectAllCells` from `src/unnamed/part_000`. -/
def selectAllCells (s : CropperState) : CropperState :=
  match s.gridResult with
  | none => s
  | some r => { s with selectedCells := List.range r.cells.length }

/-- `clearCellSelection` from `src/unnamed/part_000`. -/
def clearCellSelection (s : CropperState) : CropperState :=
  { s with selectedCells := [] }

/-- `setCropMode` from `src/unnamed/part_000`. -/
def setCropMode (s : CropperState) (mode : CropMode) : CropperState :=
  { s with cropMode := mode }

/-- `startRegion` from `src/unnamed/part_000`; the id built from `Date.now()`
is an external input of the embedding. -/
def startRegion (s : CropperState) (id : String) (x y : Rat) : CropperState :=
  { s with currentRegion := some { id := id, x := x, y := y, width := 0, height := 0 } }

/-- `updateRegion` from `src/unnamed/part_000`. -/
def updateRegion (s : CropperState) (x y : Rat) : CropperState :=
  match s.currentRegion with
  | none => s
  | some cur =>
      { s with currentRegion := some { cur with width := x - cur.x, height := y - cur.y } }

/-- `finishRegion` from `src/unnamed/part_000`: normalizes a negative
width/height and appends the region to `cropRegions` only when it is at
least 10×10; otherwise the drawn region is discarded. -/
def finishRegion (s : CropperState) : CropperState :=
  match s.currentRegion with
  | none => s
  | some cur =>
      let x := if cur.width < 0 then cur.x + cur.width else cur.x
      let width := if cur.width < 0 then |cur.width| else cur.width
      let y := if cur.height < 0 then cur.y + cur.height else cur.y
      let height := if cur.height < 0 then |cur.height| else cur.height
      if 10 ≤ width ∧ 10 ≤ height then
        { s with
          cropRegions := s.cropRegions ++
            [{ cur with x := x, y := y, width := width, height := height }]
          currentRegion := none }
      else
        { s with currentRegion := none }

/-- `deleteRegion` from `src/unnamed/part_000`. -/
def deleteRegion (s : CropperState) (id : String) : CropperState :=
  { s with
    cropRegions := s.cropRegions.filter (fun r => r.id ≠ id)
    selectedRegionId := if s.selectedRegionId = some id then none else s.selectedRegionId }

/-- `selectRegion` from `src/unnamed/part_000`. -/
def selectRegion (s : CropperState) (id : Option String) : CropperState :=
  { s with selectedRegionId := id }

/-- `clearRegions` from `src/unnamed/part_000`. -/
def clearRegions (s : CropperState) : CropperState :=
  { s with cropRegions := [], currentRegion := none, selectedRegionId := none }

/-- `setExtractedImages` from `src/unnamed/part_000`. -/
def setExtractedImages (s : CropperState) (images : List String) : CropperState :=
  { s with extractedImages := images }

/-- `clearExtractedImages` from `src/unnamed/part_000`. -/
def clearExtractedImages (s : CropperState) : CropperState :=
  { s with extractedImages := [] }

/-- `reset` from `src/unnamed/part_000`. -/
def resetStore (_ : CropperState) : CropperState := initialState

/-- One user-visible action of the cropper store; arguments are the action's
parameters (external inputs such as the `Date.now()`-based region id are
parameters of the action). -/
inductive CropAction where
  | openModal (sourceImage : String) (sourceNodeId : Option String)
  | closeModal
  | setImageDimensions (d : Rat × Rat)
  | setGridResult (result : Option GridDetectionResult)
  | setCustomGrid (rows cols : Nat)
  | toggleCellSelection (index : Nat)
  | selectAllCells
  | clearCellSelection
  | setCropMode (mode : CropMode)
  | startRegion (id : String) (x y : Rat)
  | updateRegion (x y : Rat)
  | finishRegion
  | deleteRegion (id : String)
  | selectRegion (id : Option String)
  | clearRegions
  | setExtractedImages (images : List String)
  | clearExtractedImages
  | reset

/-- Dispatch of a store action to its implementation. -/
def cropperStep (s : CropperState) : CropAction → CropperState
  | .openModal img nid => openModal s img nid
  | .closeModal => closeModal s
  | .setImageDimensions d => setImageDimensions s d
  | .setGridResult r => setGridResult s r
  | .setCustomGrid r c => setCustomGrid s r c
  | .toggleCellSelection i => toggleCellSelection s i
  | .selectAllCells => selectAllCells s
  | .clearCellSelection => clearCellSelection s
  | .setCropMode m => setCropMode s m
  | .startRegion id x y => startRegion s id x y
  | .updateRegion x y => updateRegion s x y
  | .finishRegion => finishRegion s
  | .deleteRegion id => deleteRegion s id
  | .selectRegion id => selectRegion s id
  | .clearRegions => clearRegions s
  | .setExtractedImages imgs => setExtractedImages s imgs
  | .clearExtractedImages => clearExtractedImages s
  | .reset => resetStore s

/-- States of the cropper store reachable from `initialState` by store
actions. -/
inductive CropReachable : CropperState → Prop where
  | init : CropReachable initialState
  | step {s : CropperState} (a : CropAction) : CropReachable s → CropReachable (cropperStep s a)

/-- The cropper-store invariant: every stored crop region is at least
10×10. -/
def RegionsOK (s : CropperState) : Prop :=
  ∀ r ∈ s.cropRegions, 10 ≤ r.width ∧ 10 ≤ r.height

/-! ## Workflow execution engine

The engine's implementation (graph store, connection validator, input
resolver, dependency scheduler, run controller) is not among the available
sources; every definition in this section is modelled from the
specification document (its §3 data model and §4 component design). -/

/-- Modelled from the spec: the node-type enum of §3
(`imageInput, prompt, annotation, nanoBanana, llmGenerate, output`); the
annotation constructor is spelled `annotNode` here. -/
inductive NodeType where
  | imageInput
  | prompt
  | annotNode
  | nanoBanana
  | llmGenerate
  | output
  deriving Repr, DecidableEq

/-- Modelled from the spec: the per-node status state machine of §4.4. -/
inductive NodeStatus where
  | idle
  | loading
  | success
  | error
  deriving Repr, DecidableEq

/-- Modelled from the spec: a workflow node (§3), flattening the
type-specific `data` payload into the output fields named in §4.2
(`imageInput.data.image`, `annotation.data.outputImage`,
`nanoBanana.data.outputImage`, `prompt.data.prompt`,
`llmGenerate.data.outputText`) plus `status` and `error`. -/
structure WNode where
  id : String
  ntype : NodeType
  status : NodeStatus
  error : Option String
  image : Option String
  outputImage : Option String
  prompt : Option String
  outputText : Option String
  groupId : Option String
  deriving Repr, DecidableEq

/-- Modelled from the spec: the handle type of an edge endpoint
(`"image" | "text"`, §3). -/
inductive Handle where
  | image
  | text
  deriving Repr, DecidableEq

/-- Modelled from the spec: a directed edge (§3); the advisory
`data: {offsetX, offsetY, hasPause}` payload carries no engine-visible
information and is omitted. -/
structure WEdge where
  id : String
  source : String
  sourceHandle : Handle
  target : String
  targetHandle : Handle
  deriving Repr, DecidableEq

/-- Modelled from the spec: the graph owned by the Graph Store; the edge
list is kept in edge-creation order (§3: fan-in order = edge-creation
order). -/
structure Graph where
  nodes : List WNode
  edges : List WEdge
  deriving Repr, DecidableEq

/-- The empty graph. -/
def emptyGraph : Graph := { nodes := [], edges := [] }

/-- Look up a node by id. -/
def findNode (g : Graph) (id : String) : Option WNode :=
  g.nodes.find? (fun n => n.id == id)

/-- Modelled from the spec: the image-output field of a node, by node type
(§4.2): `imageInput.data.image`, `annotation.data.outputImage`,
`nanoBanana.data.outputImage`; other types never produce images. -/
def imageOutput (n : WNode) : Option String :=
  match n.ntype with
  | .imageInput => n.image
  | .annotNode => n.outputImage
  | .nanoBanana => n.outputImage
  | _ => none

/-- Modelled from the spec: the text-output field of a node, by node type
(§4.2): `prompt.data.prompt` or `llmGenerate.data.outputText`. -/
def textOutput (n : WNode) : Option String :=
  match n.ntype with
  | .prompt => n.prompt
  | .llmGenerate => n.outputText
  | _ => none

/-- Modelled from the spec: the output field of a node used when checking
whether a dependency "already holds valid output" (§4.3 regenerate mode). -/
def nodeOutput (n : WNode) : Option String :=
  match n.ntype with
  | .imageInput => n.image
  | .prompt => n.prompt
  | .annotNode => n.outputImage
  | .nanoBanana => n.outputImage
  | .llmGenerate => n.outputText
  | .output => none

/-- Fuel-bounded reachability search over the current edges (the
"reachability search from `target` to `source`" of §4.1 rule (c)). -/
def reachB (edges : List WEdge) : Nat → String → String → Bool
  | 0, a, b => a == b
  | fuel + 1, a, b =>
      a == b ||
        (edges.filter (fun e => e.source == a)).any (fun e => reachB edges fuel e.target b)

/-- Modelled from the spec: `canConnect(sourceNode, sourceHandle,
targetNode, targetHandle)` of §4.1, applying its rules in order:
(a) reject a handle-type mismatch; (b) reject a self-loop; (c) reject an
edge that would close a cycle (target reaches source over current edges);
(d) otherwise accept. -/
def canConnect (g : Graph) (sourceNode : WNode) (sourceHandle : Handle)
    (targetNode : WNode) (targetHandle : Handle) : Bool :=
  if sourceHandle ≠ targetHandle then false
  else if sourceNode.id == targetNode.id then false
  else if reachB g.edges g.nodes.length targetNode.id sourceNode.id then false
  else true

/-- Modelled from the spec: a Graph Store mutation (§2: "add, update,
delete, connect").  `connect` inserts an edge only when both endpoints
exist and `canConnect` accepts; `deleteNode` cascades (§3): incident edges
are removed. -/
inductive StoreAction where
  | addNode (n : WNode)
  | setStatus (id : String) (status : NodeStatus)
  | deleteNode (id : String)
  | connect (edgeId sourceId : String) (sourceHandle : Handle)
      (targetId : String) (targetHandle : Handle)

/-- Modelled from the spec: applying one Graph Store mutation. -/
def applyAction (g : Graph) : StoreAction → Graph
  | .addNode n => { g with nodes := g.nodes ++ [n] }
  | .setStatus id st =>
      { g with nodes := g.nodes.map (fun n => if n.id == id then { n with status := st } else n) }
  | .deleteNode id =>
      { nodes := g.nodes.filter (fun n => n.id ≠ id)
        edges := g.edges.filter (fun e => e.source ≠ id ∧ e.target ≠ id) }
  | .connect eid sid sh tid th =>
      match findNode g sid, findNode g tid with
      | some sn, some tn =>
          if canConnect g sn sh tn th then
            { g with edges := g.edges ++ [{ id := eid, source := sid, sourceHandle := sh,
                                            target := tid, targetHandle := th }] }
          else g
      | _, _ => g

/-- Graph-store states reachable from the empty graph by store actions. -/
inductive ReachableStore : Graph → Prop where
  | init : ReachableStore emptyGraph
  | step {g : Graph} (a : StoreAction) : ReachableStore g → ReachableStore (applyAction g a)

/-- The type-homogeneity invariant of §3: every stored edge satisfies
`sourceHandle == targetHandle`. -/
def EdgesHomogeneous (g : Graph) : Prop :=
  ∀ e ∈ g.edges, e.sourceHandle = e.targetHandle

/-- Modelled from the spec: the result of `resolveInputs` (§4.2): an ordered
list of image payloads and at most one text value. -/
structure ResolvedInputs where
  images : List String
  text : Option String
  deriving Repr, DecidableEq

/-- Modelled from the spec: `resolveInputs(nodeId)` (§4.2).  Image inputs:
all edges targeting the node's `image` handle, in edge-creation order,
reading each source's image-output field and skipping sources whose output
is currently null.  Text input: among edges targeting the `text` handle the
most recently connected one wins; its source's text-output field is read. -/
def resolveInputs (g : Graph) (nodeId : String) : ResolvedInputs :=
  let incoming := g.edges.filter (fun e => e.target == nodeId)
  { images :=
      (incoming.filter (fun e => e.targetHandle == Handle.image)).filterMap
        (fun e => (findNode g e.source).bind imageOutput)
    text :=
      ((incoming.filter (fun e => e.targetHandle == Handle.text)).getLast?).bind
        (fun e => (findNode g e.source).bind textOutput) }

/-- The ids of the currently-ready nodes among `remaining`: those with no
incoming data edge whose source is still in `remaining` (§4.3). -/
def readyIds (edges : List WEdge) (remaining : List String) : List String :=
  remaining.filter
    (fun v => edges.all (fun e => e.target ≠ v ∨ e.source ∉ remaining))

/-- Modelled from the spec: the batch-building loop of the Dependency
Scheduler (§4.3), Kahn-style: repeatedly peel off the ready set; if nodes
remain but none is ready, that residual set is unresolvable (a cycle) and
is reported as the error value.  The fuel argument (one unit per peeled
batch) makes the recursion structural; `plan` supplies enough fuel. -/
def planAux (edges : List WEdge) : Nat → List String → Except (List String) (List (List String))
  | _, [] => .ok []
  | 0, remaining => .error remaining
  | fuel + 1, remaining =>
      let ready := readyIds edges remaining
      if ready.isEmpty then .error remaining
      else
        match planAux edges fuel (remaining.filter (fun v => v ∉ ready)) with
        | .ok batches => .ok (ready :: batches)
        | .error r => .error r

/-- Modelled from the spec: `plan(graph) -> ExecutionPlan | CycleError`
(§4.3).  The error value carries the residual (blocked) node ids. -/
def plan (g : Graph) : Except (List String) (List (List String)) :=
  planAux g.edges g.nodes.length (g.nodes.map (fun n => n.id))

/-- A node type that runs through the §4.4 executor state machine (the
generation-capable types). -/
def isGeneration (n : WNode) : Bool :=
  n.ntype == NodeType.nanoBanana || n.ntype == NodeType.llmGenerate

/-- A resolved text input that is missing after resolution: absent or empty
(per the §8 scenario, an empty connected prompt fails validation). -/
def textMissing : Option String → Bool
  | none => true
  | some s => s.isEmpty

/-- Modelled from the spec: the reasons a run fails validation up front
(§4.5): a cycle through data-dependency edges, or a generation node lacking
a text input reachable after resolution. -/
inductive RunError where
  | cycleError (residual : List String)
  | missingTextInput (nodeId : String)
  deriving Repr, DecidableEq

/-- Modelled from the spec: the up-front run validation of §4.5, checked in
the order the spec lists: cycle first, then missing text input. -/
def validateRun (g : Graph) : Option RunError :=
  match plan g with
  | .error residual => some (.cycleError residual)
  | .ok _ =>
      match g.nodes.find? (fun n => isGeneration n && textMissing (resolveInputs g n.id).text) with
      | some n => some (.missingTextInput n.id)
      | none => none

/-- Modelled from the spec: the uniform provider-result shape
`{success, payload | error}` seen by the Node Executor (§4.4, §6). -/
inductive ProviderOutcome where
  | success (payload : String)
  | failure (error : String)
  deriving Repr, DecidableEq

/-- Modelled from the spec: writing a provider result into a node (§4.4):
on success the status becomes `success` and the type-specific output field
is written; on failure the status becomes `error`, the `error` field is set
and output fields are left unchanged. -/
def applyOutcome (n : WNode) (o : ProviderOutcome) : WNode :=
  match o with
  | .success payload =>
      match n.ntype with
      | .nanoBanana => { n with status := .success, outputImage := some payload }
      | .llmGenerate => { n with status := .success, outputText := some payload }
      | _ => { n with status := .success }
  | .failure e => { n with status := .error, error := some e }

/-- Modelled from the spec: executing one node of a ready batch (§4.4);
pure data nodes are not run through the state machine. -/
def executeNode (oracle : String → ProviderOutcome) (n : WNode) : WNode :=
  if isGeneration n then applyOutcome n (oracle n.id) else n

/-- Modelled from the spec: draining the plan's ready batches in order
(§4.5), executing the members of each batch. -/
def executePlan (oracle : String → ProviderOutcome) (g : Graph)
    (batches : List (List String)) : Graph :=
  batches.foldl
    (fun acc batch =>
      { acc with nodes := acc.nodes.map (fun n => if n.id ∈ batch then executeNode oracle n else n) })
    g

/-- Modelled from the spec: the overall result of a run (§4.5). -/
inductive RunOutcome where
  | validationFailed (e : RunError)
  | completed
  deriving Repr, DecidableEq

/-- Modelled from the spec: `run(graph)` of §4.5 — validate up front; when
validation fails no node executes and the graph is returned untouched;
otherwise drain the planned batches. -/
def run (g : Graph) (oracle : String → ProviderOutcome) : RunOutcome × Graph :=
  match validateRun g with
  | some e => (.validationFailed e, g)
  | none =>
      match plan g with
      | .error residual => (.validationFailed (.cycleError residual), g)
      | .ok batches => (.completed, executePlan oracle g batches)

/-- Modelled from the spec: regenerate-single-node mode (§4.3): the target's
direct dependencies must already hold valid output; if they do, exactly the
target node is executed; if not, the request fails with a
"missing upstream input" error. -/
def regenerate (g : Graph) (nodeId : String) (oracle : String → ProviderOutcome) :
    Except String Graph :=
  let deps := (g.edges.filter (fun e => e.target == nodeId)).map (fun e => e.source)
  if deps.all (fun d => ((findNode g d).bind nodeOutput).isSome) then
    .ok { g with
          nodes := g.nodes.map (fun n => if n.id == nodeId then executeNode oracle n else n) }
  else
    .error "missing upstream input"

/-- A directed cycle among the data-dependency edges: `chainTo edges first
cur vs` says `cur` steps through `vs` edge by edge and the last element
steps back to `first`. -/
def edgeB (edges : List WEdge) (u v : String) : Bool :=
  edges.any (fun e => e.source == u && e.target == v)

/-- The chain predicate underlying `isCycleList`. -/
def chainTo (edges : List WEdge) (first : String) : String → List String → Bool
  | last, [] => edgeB edges last first
  | cur, w :: ws => edgeB edges cur w && chainTo edges first w ws

/-- A nonempty node-id list forming a directed cycle over `edges`. -/
def isCycleList (edges : List WEdge) : List String → Bool
  | [] => false
  | v :: vs => chainTo edges v v vs

/-- The graph contains a directed cycle among its data-dependency edges,
running through nodes of the graph. -/
def HasCycle (g : Graph) : Prop :=
  ∃ l : List String, isCycleList g.edges l = true ∧ ∀ v ∈ l, v ∈ g.nodes.map (fun n => n.id)

/-! ## Image-generation API route (`src/unnamed/part_004`) -/

/-- `maxDuration` exported by `src/unnamed/part_004` (seconds). -/
def generateMaxDuration : Nat := 300

/-- A thrown JS value as observed by the routes' catch blocks: whether it is
an `Error` (then `message`/`stack`/`cause` are read), whether it is an
object (then the `status`/`statusText`/`errorDetails`/`response` fields are
read, each recorded here as its stringified form when present). -/
structure Thrown where
  isError : Bool
  isObject : Bool
  message : String
  stack : Option String
  causeJson : Option String
  statusField : Option String
  statusTextField : Option String
  errorDetailsJson : Option String
  responseJson : Option String
  deriving Repr, DecidableEq

/-- A plain `new Error(msg)` (an object with no extra detail fields). -/
def mkError (msg : String) : Thrown where
  isError := true
  isObject := true
  message := msg
  stack := none
  causeJson := none
  statusField := none
  statusTextField := none
  errorDetailsJson := none
  responseJson := none

/-- JS `String.prototype.includes`. -/
def strIncludes (hay needle : String) : Bool :=
  hay.toList.tails.any (fun t => needle.toList.isPrefixOf t)

/-- The body of a `GenerateResponse` (`{success: true, image}` or
`{success: false, error}`). -/
inductive GenResp where
  | success (image : String)
  | failure (error : String)
  deriving Repr, DecidableEq

/-- The provider call sites of the generate route, used to record which
external calls a request performs. -/
inductive CallTag where
  | gemini
  | azureFlux
  | azureGpt
  | urlFetch
  deriving Repr, DecidableEq

/-- An HTTP response of the generate route together with the provider calls
made while producing it. -/
structure GenResult where
  resp : GenResp
  status : Nat
  calls : List CallTag
  deriving Repr, DecidableEq

/-- The environment variables read by the generate route. -/
structure GenEnv where
  geminiApiKey : Option String
  azureApiKey : Option String
  azureGptImageApiKey : Option String
  deriving Repr, DecidableEq

/-- The `GenerateRequest` body fields read by the route (`aspect` embeds the
`aspectRatio` field). -/
structure GenerateRequest where
  images : Option (List String)
  prompt : Option String
  model : Option String
  aspect : Option String
  resolution : Option String
  useGoogleSearch : Bool
  size : Option String
  gptImageSize : Option String
  gptImageQuality : Option String
  deriving Repr, DecidableEq

/-- `inlineData` of a Gemini response part. -/
structure InlineData where
  mimeType : Option String
  data : Option String
  deriving Repr, DecidableEq

/-- A part of a Gemini candidate's content. -/
structure GPart where
  inlineData : Option InlineData
  text : Option String
  deriving Repr, DecidableEq

/-- The `content` of a Gemini candidate. -/
structure GContent where
  parts : Option (List GPart)
  deriving Repr, DecidableEq

/-- A Gemini response candidate. -/
structure Candidate where
  content : Option GContent
  deriving Repr, DecidableEq

/-- Awaited outcome of `ai.models.generateContent`: either a thrown value or
a response with an optional candidate list. -/
inductive GeminiOutcome where
  | thrown (t : Thrown)
  | ok (candidates : Option (List Candidate))
  deriving Repr, DecidableEq

/-- One item of an Azure image response's `data` array. -/
structure AzureItem where
  b64Json : Option String
  url : Option String
  deriving Repr, DecidableEq

/-- Parsed JSON body of a successful Azure fetch. -/
structure AzureBody where
  data : Option (List AzureItem)
  deriving Repr, DecidableEq

/-- Awaited outcome of an Azure `fetch`: a thrown value (network failure or
a later `await` in the `try` block throwing), or a settled response with
its status, its error body text (read when not ok) and its parsed JSON body
(read when ok).  `ok` is `200 <= status < 300` as for `Response.ok`. -/
inductive FetchOutcome where
  | thrown (t : Thrown)
  | resp (status : Nat) (errorText : String) (body : AzureBody)
  deriving Repr, DecidableEq

/-- Awaited outcome of the follow-up fetch of a URL-based Azure result:
a thrown value, or the fetched bytes already re-encoded to base64 (the
route only ever converts the buffer to base64). -/
inductive UrlOutcome where
  | thrown (t : Thrown)
  | ok (base64 : String)
  deriving Repr, DecidableEq

/-- The compiled `errorMessage`/`errorDetails` handling at the end of the
generate route's catch block (`src/unnamed/part_004`, lines 280-359):
builds the message and details from the thrown value, short-circuits
rate-limit errors to a 429, otherwise returns a 500 whose error string is
the message followed by the truncated details. -/
def generateCatch (t : Thrown) (calls : List CallTag) : GenResult :=
  let errorMessage := if t.isError then t.message else "Generation failed"
  let d1 := if t.isError then t.stack.getD "" else ""
  let d2 := d1 ++ (if t.isError then
      (match t.causeJson with
        | some c => "\nCause: " ++ c
        | none => "") else "")
  let d3 := d2 ++ (if t.isObject then
      (match t.statusField with
        | some s => "\nStatus: " ++ s
        | none => "") ++
      (match t.statusTextField with
        | some s => "\nStatusText: " ++ s
        | none => "") ++
      (match t.errorDetailsJson with
        | some s => "\nDetails: " ++ s
        | none => "") ++
      (match t.responseJson with
        | some s => "\nResponse: " ++ s
        | none => "") else "")
  if strIncludes errorMessage "429" then
    { resp := .failure "Rate limit reached. Please wait and try again.", status := 429,
      calls := calls }
  else
    { resp := .failure (errorMessage ++
        (if d3.isEmpty then "" else " | Details: " ++ d3.take 500)),
      status := 500, calls := calls }

/-- `handleAzureFluxGeneration` of `src/unnamed/part_004`: check the Azure
API key, require a truthy prompt, call the Azure FLUX endpoint and map its
outcome to the uniform response shape. -/
def handleAzureFluxGeneration (env : GenEnv) (prompt : Option String)
    (fetchOut : FetchOutcome) (urlOut : UrlOutcome) : GenResult :=
  if !optTruthy env.azureApiKey then
    { resp := .failure "Azure API key not configured. Add AZURE_API_KEY to .env.local",
      status := 500, calls := [] }
  else if !optTruthy prompt then
    { resp := .failure "Prompt is required for Azure FLUX generation", status := 400, calls := [] }
  else
    match fetchOut with
    | .thrown t =>
        { resp := .failure ("Azure FLUX generation failed: " ++
            (if t.isError then t.message else "Unknown error")),
          status := 500, calls := [.azureFlux] }
    | .resp status errorText body =>
        if !(200 ≤ status ∧ status < 300) then
          { resp := .failure ("Azure FLUX API error: " ++ toString status ++ " - " ++
              errorText.take 200),
            status := status, calls := [.azureFlux] }
        else
          match body.data with
          | some (item :: _) =>
              if optTruthy item.b64Json then
                { resp := .success ("data:image/png;base64," ++ item.b64Json.getD ""),
                  status := 200, calls := [.azureFlux] }
              else if optTruthy item.url then
                match urlOut with
                | .ok b64 =>
                    { resp := .success ("data:image/png;base64," ++ b64), status := 200,
                      calls := [.azureFlux, .urlFetch] }
                | .thrown t =>
                    { resp := .failure ("Azure FLUX generation failed: " ++
                        (if t.isError then t.message else "Unknown error")),
                      status := 500, calls := [.azureFlux, .urlFetch] }
              else
                { resp := .failure "No image in Azure FLUX response", status := 500,
                  calls := [.azureFlux] }
          | _ =>
              { resp := .failure "No image in Azure FLUX response", status := 500,
                calls := [.azureFlux] }

/-- `handleAzureGptImageGeneration` of `src/unnamed/part_004`: same shape as
the FLUX handler with the GPT-Image key, endpoint and message strings. -/
def handleAzureGptImageGeneration (env : GenEnv) (prompt : Option String)
    (fetchOut : FetchOutcome) (urlOut : UrlOutcome) : GenResult :=
  if !optTruthy env.azureGptImageApiKey then
    { resp := .failure
        "Azure GPT Image API key not configured. Add AZURE_GPT_IMAGE_API_KEY to .env.local",
      status := 500, calls := [] }
  else if !optTruthy prompt then
    { resp := .failure "Prompt is required for Azure GPT Image generation", status := 400,
      calls := [] }
  else
    match fetchOut with
    | .thrown t =>
        { resp := .failure ("Azure GPT Image generation failed: " ++
            (if t.isError then t.message else "Unknown error")),
          status := 500, calls := [.azureGpt] }
    | .resp status errorText body =>
        if !(200 ≤ status ∧ status < 300) then
          { resp := .failure ("Azure GPT Image API error: " ++ toString status ++ " - " ++
              errorText.take 200),
            status := status, calls := [.azureGpt] }
        else
          match body.data with
          | some (item :: _) =>
              if optTruthy item.b64Json then
                { resp := .success ("data:image/png;base64," ++ item.b64Json.getD ""),
                  status := 200, calls := [.azureGpt] }
              else if optTruthy item.url then
                match urlOut with
                | .ok b64 =>
                    { resp := .success ("data:image/png;base64," ++ b64), status := 200,
                      calls := [.azureGpt, .urlFetch] }
                | .thrown t =>
                    { resp := .failure ("Azure GPT Image generation failed: " ++
                        (if t.isError then t.message else "Unknown error")),
                      status := 500, calls := [.azureGpt, .urlFetch] }
              else
                { resp := .failure "No image in Azure GPT Image response", status := 500,
                  calls := [.azureGpt] }
          | _ =>
              { resp := .failure "No image in Azure GPT Image response", status := 500,
                calls := [.azureGpt] }

/-- The Gemini response processing of the generate route
(`src/unnamed/part_004`, lines 184-279): no/empty candidate list, missing
parts, first image part, first text part, or nothing usable. -/
def geminiExtract (candidates : Option (List Candidate)) : GenResp × Nat :=
  match candidates with
  | none => (.failure "No response from AI model", 500)
  | some [] => (.failure "No response from AI model", 500)
  | some (c :: _) =>
      match c.content.bind (fun ct => ct.parts) with
      | none => (.failure "No content in response", 500)
      | some parts =>
          match parts.find? (fun p => optTruthy (p.inlineData.bind (fun d => d.data))) with
          | some p =>
              let d := p.inlineData.getD { mimeType := none, data := none }
              let mimeType := if optTruthy d.mimeType then d.mimeType.getD "" else "image/png"
              (.success ("data:" ++ mimeType ++ ";base64," ++ (d.data.getD "")), 200)
          | none =>
              match parts.find? (fun p => optTruthy p.text) with
              | some p =>
                  (.failure ("Model returned text instead of image: " ++
                    (p.text.getD "").take 200), 500)
              | none => (.failure "No image in response", 500)

/-- `POST` of `src/unnamed/part_004`: parse the body (a parse failure throws
into the catch block), route Azure models to their handlers before any
other validation, then check the Gemini key, then the
"at least one image and prompt" validation, then call Gemini and map its
outcome. -/
def generatePOST (env : GenEnv) (body : Option GenerateRequest) (parseErr : Thrown)
    (geminiOut : GeminiOutcome) (fluxOut : FetchOutcome) (gptOut : FetchOutcome)
    (urlOut : UrlOutcome) : GenResult :=
  match body with
  | none => generateCatch parseErr []
  | some b =>
      let model := b.model.getD "nano-banana-pro"
      if model == "azure-flux-pro" then
        handleAzureFluxGeneration env b.prompt fluxOut urlOut
      else if model == "azure-gpt-image" then
        handleAzureGptImageGeneration env b.prompt gptOut urlOut
      else if !optTruthy env.geminiApiKey then
        { resp := .failure ("Gemini API key not configured for model \"" ++ model ++
            "\". Either add GEMINI_API_KEY to .env.local or switch to Azure FLUX Pro model."),
          status := 500, calls := [] }
      else if b.images = none ∨ b.images.getD [] = [] ∨ !optTruthy b.prompt then
        { resp := .failure "At least one image and prompt are required", status := 400,
          calls := [] }
      else
        match geminiOut with
        | .thrown t => generateCatch t [.gemini]
        | .ok candidates =>
            let (r, st) := geminiExtract candidates
            { resp := r, status := st, calls := [.gemini] }

/-! ## LLM API route (`src/src/app/api/llm/route.ts`) -/

/-- `maxDuration` exported by `src/src/app/api/llm/route.ts` (seconds). -/
def llmMaxDuration : Nat := 60

/-- The `LLMGenerateRequest` body fields read by the route (the temperature
and max-token knobs do not influence control flow and carry no proof
content, but are kept for shape). -/
structure LLMRequest where
  prompt : Option String
  images : Option (List String)
  provider : Option String
  model : Option String
  temperature : Option Rat
  maxTokens : Option Nat
  deriving Repr, DecidableEq

/-- The environment variables read by the LLM route. -/
structure LLMEnv where
  geminiApiKey : Option String
  openaiApiKey : Option String
  deriving Repr, DecidableEq

/-- Awaited outcome of the Google SDK call inside `generateWithGoogle`:
a thrown value, or a response whose `.text` is the concatenated text. -/
inductive GoogleOutcome where
  | thrown (t : Thrown)
  | resp (text : Option String)
  deriving Repr, DecidableEq

/-- Awaited outcome of the OpenAI fetch inside `generateWithOpenAI`:
a thrown value, or a settled response with status, the `error.error?.message`
of its JSON body (when not ok; `none` also covers an unparsable body) and
the `choices[0]?.message?.content` (when ok). -/
inductive OpenAIOutcome where
  | thrown (t : Thrown)
  | resp (status : Nat) (errMessage : Option String) (content : Option String)
  deriving Repr, DecidableEq

/-- `generateWithGoogle` of `src/src/app/api/llm/route.ts`: throws when the
key is missing, propagates a thrown SDK error, throws when the response has
no text, otherwise returns the text. -/
def generateWithGoogle (env : LLMEnv) (outcome : GoogleOutcome) : Except Thrown String :=
  if !optTruthy env.geminiApiKey then
    .error (mkError "GEMINI_API_KEY not configured")
  else
    match outcome with
    | .thrown t => .error t
    | .resp text =>
        if optTruthy text then .ok (text.getD "")
        else .error (mkError "No text in Google AI response")

/-- `generateWithOpenAI` of `src/src/app/api/llm/route.ts`: throws when the
key is missing, propagates a thrown fetch error, throws the body's error
message (or a status fallback) when the response is not ok, throws when the
content is missing, otherwise returns the content. -/
def generateWithOpenAI (env : LLMEnv) (outcome : OpenAIOutcome) : Except Thrown String :=
  if !optTruthy env.openaiApiKey then
    .error (mkError "OPENAI_API_KEY not configured")
  else
    match outcome with
    | .thrown t => .error t
    | .resp status errMessage content =>
        if !(200 ≤ status ∧ status < 300) then
          .error (mkError (if optTruthy errMessage then errMessage.getD ""
            else "OpenAI API error: " ++ toString status))
        else if optTruthy content then .ok (content.getD "")
        else .error (mkError "No text in OpenAI response")

/-- The body of an `LLMGenerateResponse`. -/
inductive LLMResp where
  | success (text : String)
  | failure (error : String)
  deriving Repr, DecidableEq

/-- An HTTP response of the LLM route. -/
structure LLMResult where
  resp : LLMResp
  status : Nat
  deriving Repr, DecidableEq

/-- The catch block of the LLM route's `POST`: a 429 for rate-limit errors,
otherwise a 500 carrying the thrown `Error`'s message (or a fallback for a
non-`Error` value). -/
def llmCatch (t : Thrown) : LLMResult :=
  if t.isError && strIncludes t.message "429" then
    { resp := .failure "Rate limit reached. Please wait and try again.", status := 429 }
  else
    { resp := .failure (if t.isError then t.message else "LLM generation failed"), status := 500 }

/-- `POST` of `src/src/app/api/llm/route.ts`: parse the body (a parse
failure throws into the catch block), require a truthy prompt, dispatch on
the provider (an unknown provider is a 400 interpolating the provider
value, JS printing `undefined` for an absent one), and map the inner call's
result or thrown error. -/
def llmPOST (env : LLMEnv) (body : Option LLMRequest) (parseErr : Thrown)
    (googleOut : GoogleOutcome) (openaiOut : OpenAIOutcome) : LLMResult :=
  match body with
  | none => llmCatch parseErr
  | some b =>
      if !optTruthy b.prompt then
        { resp := .failure "Prompt is required", status := 400 }
      else if b.provider == some "google" then
        match generateWithGoogle env googleOut with
        | .ok text => { resp := .success text, status := 200 }
        | .error t => llmCatch t
      else if b.provider == some "openai" then
        match generateWithOpenAI env openaiOut with
        | .ok text => { resp := .success text, status := 200 }
        | .error t => llmCatch t
      else
        { resp := .failure ("Unknown provider: " ++ (b.provider.getD "undefined")), status := 400 }

/-- A thrown value whose `Error` message, if it is an `Error`, is
non-empty. -/
def ThrownMsgOK (t : Thrown) : Prop :=
  t.isError = true → t.message ≠ ""

/-- The thrown value of a Gemini outcome, if any, has a non-empty message. -/
def GeminiOutcomeOK : GeminiOutcome → Prop
  | .thrown t => ThrownMsgOK t
  | .ok _ => True

/-- The thrown value of an Azure fetch outcome, if any, has a non-empty
message. -/
def FetchOutcomeOK : FetchOutcome → Prop
  | .thrown t => ThrownMsgOK t
  | .resp _ _ _ => True

/-- The thrown value of a URL fetch outcome, if any, has a non-empty
message. -/
def UrlOutcomeOK : UrlOutcome → Prop
  | .thrown t => ThrownMsgOK t
  | .ok _ => True

/-- The thrown value of a Google LLM outcome, if any, has a non-empty
message. -/
def GoogleOutcomeOK : GoogleOutcome → Prop
  | .thrown t => ThrownMsgOK t
  | .resp _ => True

/-- The thrown value of an OpenAI outcome, if any, has a non-empty
message. -/
def OpenAIOutcomeOK : OpenAIOutcome → Prop
  | .thrown t => ThrownMsgOK t
  | .resp _ _ _ => True

/-- The uniform provider shape of a generate-route response: success with
an image at HTTP 200, or failure with an error string at a non-200
status. -/
def GenUniform (r : GenResult) : Prop :=
  (∃ i, r.resp = GenResp.success i ∧ r.status = 200) ∨
  (∃ e, r.resp = GenResp.failure e ∧ r.status ≠ 200)

/-- The uniform provider shape of an LLM-route response. -/
def LLMUniform (r : LLMResult) : Prop :=
  (∃ t, r.resp = LLMResp.success t ∧ r.status = 200) ∨
  (∃ e, r.resp = LLMResp.failure e ∧ r.status ≠ 200)

/-- Every failure carried by a generate-route response has a non-empty error
string. -/
def GenErrorsNonempty (r : GenResult) : Prop :=
  ∀ e, r.resp = GenResp.failure e → e ≠ ""

/-- Every failure carried by an LLM-route response has a non-empty error
string. -/
def LLMErrorsNonempty (r : LLMResult) : Prop :=
  ∀ e, r.resp = LLMResp.failure e → e ≠ ""

/-! ## Base64 (Node `Buffer` encode/decode for canonical payloads)

`src/unnamed/part_006` decodes the posted data-URL payload with
`Buffer.from(-, "base64")` and `src/src/app/api/load-generation/route.ts`
re-encodes the stored bytes with `buffer.toString("base64")`.  The standard
padded base64 coding is embedded here over byte lists (`Nat` values below
256); Node's decoder is lenient on malformed input, but on canonical
payloads — the only ones the round-trip claim quantifies over — it agrees
with this decoder. -/

/-- The base64 alphabet. -/
def b64chr (i : Nat) : Char :=
  "ABCDEFGHIJKLMNOPQRSTUVWXYZabcdefghijklmnopqrstuvwxyz0123456789+/".toList.getD i 'A'

/-- Index of a character in the base64 alphabet. -/
def b64idx (c : Char) : Option Nat :=
  "ABCDEFGHIJKLMNOPQRSTUVWXYZabcdefghijklmnopqrstuvwxyz0123456789+/".toList.findIdx?
    (fun x => x == c)

/-- Base64-encode a byte list, three bytes to four characters, padding the
final partial group with `=`. -/
def b64encodeList : List Nat → List Char
  | b1 :: b2 :: b3 :: rest =>
      b64chr (b1 / 4) :: b64chr ((b1 % 4) * 16 + b2 / 16) ::
        b64chr ((b2 % 16) * 4 + b3 / 64) :: b64chr (b3 % 64) :: b64encodeList rest
  | [b1, b2] =>
      [b64chr (b1 / 4), b64chr ((b1 % 4) * 16 + b2 / 16), b64chr ((b2 % 16) * 4), '=']
  | [b1] =>
      [b64chr (b1 / 4), b64chr ((b1 % 4) * 16), '=', '=']
  | [] => []

/-- `buffer.toString("base64")`. -/
def b64encode (bs : List Nat) : String :=
  String.mk (b64encodeList bs)

/-- Base64-decode a character list (canonical grammar: full quadruples, the
final one optionally `=`-padded; a padding character ends the byte stream,
and anything malformed decodes to no further bytes, as Node's lenient
decoder stops at the first invalid group). -/
def b64decodeList : List Char → List Nat
  | c1 :: c2 :: c3 :: c4 :: rest =>
      (match b64idx c1, b64idx c2 with
        | some i1, some i2 =>
            if c3 = '=' then [i1 * 4 + i2 / 16]
            else
              (match b64idx c3 with
                | some i3 =>
                    if c4 = '=' then [i1 * 4 + i2 / 16, (i2 % 16) * 16 + i3 / 4]
                    else
                      (match b64idx c4 with
                        | some i4 =>
                            (i1 * 4 + i2 / 16) :: ((i2 % 16) * 16 + i3 / 4) ::
                              ((i3 % 4) * 64 + i4) :: b64decodeList rest
                        | none => [])
                | none => [])
        | _, _ => [])
  | _ => []

/-- `Buffer.from(s, "base64")` on canonical input. -/
def b64decode (s : String) : List Nat :=
  b64decodeList s.toList

/-! ## Save/load-generation API routes (`src/unnamed/part_006`,
`src/src/app/api/load-generation/route.ts`) -/

/-- The file-system state the two routes touch: the set of existing
directories and a path-to-bytes map for regular files. -/
structure FileSystem where
  dirs : List String
  files : List (String × List Nat)
  deriving Repr, DecidableEq

/-- `path.join(directoryPath, filename)` for the non-traversing inputs the
routes build (both routes join the same way, so the round trip sees a
consistent path). -/
def pathJoin (dir name : String) : String :=
  dir ++ "/" ++ name

/-- Read a file's bytes. -/
def getFile (fs : FileSystem) (p : String) : Option (List Nat) :=
  (fs.files.find? (fun kv => kv.1 == p)).map (fun kv => kv.2)

/-- The success-path map update performed by `writeFile`: create or
overwrite the entry for a path. -/
def setFile (fs : FileSystem) (p : String) (bs : List Nat) : FileSystem :=
  if (fs.files.find? (fun kv => kv.1 == p)).isSome then
    { fs with files := fs.files.map (fun kv => if kv.1 == p then (p, bs) else kv) }
  else
    { fs with files := fs.files ++ [(p, bs)] }

/-- The parent directory of a path: everything before its final `/` (the
empty string when the path has no separator). -/
def parentDir (p : String) : String :=
  match p.toList.reverse.dropWhile (fun c => c ≠ '/') with
  | '/' :: rest => String.mk rest.reverse
  | _ => ""

/-- The message of the `Error` Node throws when writing into a missing
directory (the case `fs.writeFile` fails on in this model). -/
def writeFileError (p : String) : String :=
  "ENOENT: no such file or directory, open '" ++ p ++ "'"

/-- `fs.writeFile`: the write succeeds (updating the file map) when the
path's parent directory exists, and throws otherwise — in particular when
the file name contains a path separator into a missing subdirectory.
Failure modes outside the modelled state (permissions, disk full) are not
represented. -/
def writeFile (fs : FileSystem) (p : String) (bs : List Nat) : Option FileSystem :=
  if fs.dirs.contains (parentDir p) then some (setFile fs p bs) else none

/-- A regex `\w` word character. -/
def isWordChar (c : Char) : Bool :=
  c.isAlphanum || c == '_'

/-- Drop an expected prefix from a character list, or fail. -/
def dropPfx : List Char → List Char → Option (List Char)
  | [], rest => some rest
  | _ :: _, [] => none
  | p :: ps, c :: cs => if p = c then dropPfx ps cs else none

/-- The `image.replace(/^data:image\/\w+;base64,/, "")` of
`src/unnamed/part_006`: strip a leading `data:image/<word>;base64,` header
when the anchored pattern matches (`data:image/`, then one or more word
characters — the maximal run, equivalent to the greedy `\w+` since `;` is
not a word character — then `;base64,`), otherwise return the string
unchanged. -/
def stripImageHeader (s : String) : String :=
  match dropPfx "data:image/".toList s.toList with
  | none => s
  | some rest =>
      let ws := rest.takeWhile isWordChar
      match dropPfx ";base64,".toList (rest.drop ws.length) with
      | none => s
      | some tail => if ws.isEmpty then s else String.mk tail

/-- The `/_+/g` collapse of consecutive underscores to one. -/
def collapseUnderscores : List Char → List Char
  | [] => []
  | '_' :: rest =>
      (match collapseUnderscores rest with
        | '_' :: tail => '_' :: tail
        | tail => '_' :: tail)
  | c :: rest => c :: collapseUnderscores rest

/-- The `/^_|_$/g` replace: remove one leading and one trailing
underscore. -/
def trimOneUnderscore (cs : List Char) : List Char :=
  let cs1 := match cs with
    | '_' :: rest => rest
    | other => other
  match cs1.reverse with
  | '_' :: rest => rest.reverse
  | _ => cs1

/-- The prompt-snippet sanitizer of `src/unnamed/part_006` (slice to 30
characters, replace non-alphanumerics by `_`, collapse runs, trim one
leading/trailing `_`, lowercase). -/
def sanitizeSnippet (p : String) : String :=
  String.mk
    ((trimOneUnderscore (collapseUnderscores
      ((p.toList.take 30).map (fun c => if c.isAlphanum then c else '_')))).map Char.toLower)

/-- JS `filename.replace('.png', '')`: remove the first occurrence of
`.png`. -/
def dropFirstPng : List Char → List Char
  | [] => []
  | c :: rest =>
      if ".png".toList.isPrefixOf (c :: rest) then rest.drop 3
      else c :: dropFirstPng rest

/-- Response body of the save-generation route. -/
inductive SaveResp where
  | success (filePath filename imageId : String)
  | failure (error : String)
  deriving Repr, DecidableEq

/-- Result of a save-generation request: the response, its HTTP status and
the file system after the request. -/
structure SaveResult where
  resp : SaveResp
  status : Nat
  fs : FileSystem
  deriving Repr, DecidableEq

/-- Request body of the save-generation route. -/
structure SaveRequest where
  directoryPath : Option String
  image : Option String
  prompt : Option String
  imageId : Option String
  deriving Repr, DecidableEq

/-- `POST` of `src/unnamed/part_006` (save-generation): validate the
required fields, validate that the directory exists, pick the file name
(`imageId.png` for a truthy id, otherwise a timestamp (an external input
here) plus sanitized prompt snippet), strip the data-URL header, decode the
base64 payload and write the file; a throwing `fs.writeFile` lands in the
route's catch block, a 500 carrying the thrown `Error`'s message. -/
def saveGeneration (fs : FileSystem) (body : SaveRequest) (timestamp : String) : SaveResult :=
  if !optTruthy body.directoryPath || !optTruthy body.image then
    { resp := .failure "Missing required fields", status := 400, fs := fs }
  else
    let dir := body.directoryPath.getD ""
    if !fs.dirs.contains dir then
      if (getFile fs dir).isSome then
        { resp := .failure "Path is not a directory", status := 400, fs := fs }
      else
        { resp := .failure "Directory does not exist", status := 400, fs := fs }
    else
      let filename :=
        if optTruthy body.imageId then body.imageId.getD "" ++ ".png"
        else
          timestamp ++ "_" ++
            (if optTruthy body.prompt then sanitizeSnippet (body.prompt.getD "")
             else "generation") ++ ".png"
      let filePath := pathJoin dir filename
      let base64Data := stripImageHeader (body.image.getD "")
      let buffer := b64decode base64Data
      match writeFile fs filePath buffer with
      | some fs' =>
          { resp := .success filePath filename
              (if optTruthy body.imageId then body.imageId.getD ""
               else String.mk (dropFirstPng filename.toList))
            status := 200
            fs := fs' }
      | none =>
          { resp := .failure (writeFileError filePath), status := 500, fs := fs }

/-- Response body of the load-generation route. -/
inductive LoadResp where
  | success (image : String)
  | failure (error : String)
  deriving Repr, DecidableEq

/-- Result of a load-generation request. -/
structure LoadResult where
  resp : LoadResp
  status : Nat
  deriving Repr, DecidableEq

/-- Request body of the load-generation route. -/
structure LoadRequest where
  directoryPath : Option String
  imageId : Option String
  deriving Repr, DecidableEq

/-- `POST` of `src/src/app/api/load-generation/route.ts`: validate the
required fields, validate that the directory exists, read
`<directoryPath>/<imageId>.png` (404 when absent) and return its contents
as a `data:image/png;base64,` data URL. -/
def loadGeneration (fs : FileSystem) (body : LoadRequest) : LoadResult :=
  if !optTruthy body.directoryPath || !optTruthy body.imageId then
    { resp := .failure "Missing required fields", status := 400 }
  else
    let dir := body.directoryPath.getD ""
    if !fs.dirs.contains dir then
      if (getFile fs dir).isSome then
        { resp := .failure "Path is not a directory", status := 400 }
      else
        { resp := .failure "Directory does not exist", status := 400 }
    else
      let filePath := pathJoin dir (body.imageId.getD "" ++ ".png")
      match getFile fs filePath with
      | none => { resp := .failure "Image file not found", status := 404 }
      | some buffer =>
          { resp := .success ("data:image/png;base64," ++ b64encode buffer), status := 200 }

/-! ## Theorems -/

/-- Step lemma for the cropper store: any region present after an action was
either already stored or was just admitted by `finishRegion`'s 10×10
guard. -/
theorem cropperStep_region_mem (s : CropperState) (a : CropAction) :
    ∀ r ∈ (cropperStep s a).cropRegions,
      r ∈ s.cropRegions ∨ (10 ≤ r.width ∧ 10 ≤ r.height) := by
  cases a with
  | openModal img nid => intro r hr; simp [cropperStep, openModal] at hr
  | closeModal => intro r hr; exact Or.inl hr
  | setImageDimensions d => intro r hr; exact Or.inl hr
  | setGridResult res =>
      intro r hr
      cases res with
      | none => exact Or.inl hr
      | some g => exact Or.inl hr
  | setCustomGrid rows cols => intro r hr; exact Or.inl hr
  | toggleCellSelection i =>
      intro r hr
      simp only [cropperStep, toggleCellSelection] at hr
      split at hr <;> exact Or.inl hr
  | selectAllCells =>
      intro r hr
      simp only [cropperStep, selectAllCells] at hr
      cases hg : s.gridResult with
      | none => rw [hg] at hr; exact Or.inl hr
      | some g => rw [hg] at hr; exact Or.inl hr
  | clearCellSelection => intro r hr; exact Or.inl hr
  | setCropMode m => intro r hr; exact Or.inl hr
  | startRegion id x y => intro r hr; exact Or.inl hr
  | updateRegion x y =>
      intro r hr
      simp only [cropperStep, updateRegion] at hr
      cases hc : s.currentRegion with
      | none => rw [hc] at hr; exact Or.inl hr
      | some cur => rw [hc] at hr; exact Or.inl hr
  | finishRegion =>
      intro r hr
      simp only [cropperStep, finishRegion] at hr
      cases hc : s.currentRegion with
      | none => rw [hc] at hr; exact Or.inl hr
      | some cur =>
          rw [hc] at hr
          by_cases hw : cur.width < 0 <;> by_cases hh : cur.height < 0 <;>
            simp only [hw, hh, if_true, if_false, if_pos, if_neg, not_false_iff] at hr <;>
          · split at hr
            · rename_i hguard
              simp only [List.mem_append, List.mem_singleton] at hr
              rcases hr with hr | hr
              · exact Or.inl hr
              · subst hr; exact Or.inr hguard
            · exact Or.inl hr
  | deleteRegion id =>
      intro r hr
      simp only [cropperStep, deleteRegion] at hr
      exact Or.inl (List.mem_of_mem_filter hr)
  | selectRegion id => intro r hr; exact Or.inl hr
  | clearRegions => intro r hr; simp [cropperStep, clearRegions] at hr
  | setExtractedImages imgs => intro r hr; exact Or.inl hr
  | clearExtractedImages => intro r hr; exact Or.inl hr
  | reset => intro r hr; simp [cropperStep, resetStore, initialState] at hr

/-- Claim C10: in every reachable state of the cropper store, every stored
crop region has width ≥ 10 and height ≥ 10; `finishRegion` normalizes
negative extents and discards regions smaller than 10×10, no other action
inserts a region, and the invariant is preserved by every store action. -/
theorem cropper_reachable_regions_ge_ten (s : CropperState) (h : CropReachable s) :
    RegionsOK s := by
  induction h with
  | init => intro r hr; simp [initialState] at hr
  | step a hs ih =>
      intro r hr
      rcases cropperStep_region_mem _ a r hr with hmem | hok
      · exact ih r hmem
      · exact hok

/-- Witness for C10 at the initial state. -/
theorem cropper_reachable_regions_ge_ten_witness :
    CropReachable initialState ∧ RegionsOK initialState :=
  ⟨CropReachable.init, cropper_reachable_regions_ge_ten initialState CropReachable.init⟩

/-- `canConnect` accepting an edge forces equal handle types (rule (a) fires
first). -/
theorem canConnect_true_handles {g : Graph} {sn tn : WNode} {sh th : Handle}
    (h : canConnect g sn sh tn th = true) : sh = th := by
  by_contra hne
  simp [canConnect, hne] at h

/-- Claim C2: `canConnect` rejects every connection between handles of
differing type, and consequently every edge of a store state reachable by
the Graph Store's mutation API is type-homogeneous
(`sourceHandle = targetHandle`). -/
theorem canConnect_mismatch_false_and_homogeneous :
    (∀ (g : Graph) (sn tn : WNode) (sh th : Handle), sh ≠ th →
      canConnect g sn sh tn th = false) ∧
    (∀ g : Graph, ReachableStore g → EdgesHomogeneous g) := by
  constructor
  · intro g sn tn sh th hne
    simp [canConnect, hne]
  · intro g h
    induction h with
    | init => intro e he; simp [emptyGraph] at he
    | step a hg ih =>
        intro e he
        cases a with
        | addNode n => exact ih e he
        | setStatus id st => exact ih e he
        | deleteNode id =>
            simp only [applyAction] at he
            exact ih e (List.mem_of_mem_filter he)
        | connect eid sid sh tid th =>
            simp only [applyAction] at he
            rename_i g'
            cases hfs : findNode g' sid with
            | none => rw [hfs] at he; exact ih e he
            | some sn =>
                cases hft : findNode g' tid with
                | none => rw [hfs, hft] at he; exact ih e he
                | some tn =>
                    simp only [hfs, hft] at he
                    by_cases hcc : canConnect g' sn sh tn th = true
                    · simp only [if_pos hcc, List.mem_append, List.mem_singleton] at he
                      rcases he with he | he
                      · exact ih e he
                      · subst he
                        exact canConnect_true_handles hcc
                    · simp only [if_neg hcc] at he
                      exact ih e he

/-- Witness for C2 at concrete inputs: an image→text connection on the empty
graph is rejected, and the empty store state is homogeneous. -/
theorem canConnect_mismatch_false_and_homogeneous_witness :
    canConnect emptyGraph
      { id := "a", ntype := .imageInput, status := .idle, error := none, image := none,
        outputImage := none, prompt := none, outputText := none, groupId := none }
      Handle.image
      { id := "b", ntype := .nanoBanana, status := .idle, error := none, image := none,
        outputImage := none, prompt := none, outputText := none, groupId := none }
      Handle.text = false ∧
    EdgesHomogeneous emptyGraph :=
  ⟨canConnect_mismatch_false_and_homogeneous.1 _ _ _ _ _ (by decide),
    canConnect_mismatch_false_and_homogeneous.2 _ ReachableStore.init⟩

/-- The generate route's catch handler always yields a failure response, at
status 429 or 500, preserving the recorded calls. -/
theorem generateCatch_failure (t : Thrown) (calls : List CallTag) :
    ∃ e s, generateCatch t calls = { resp := GenResp.failure e, status := s, calls := calls } ∧
      (s = 429 ∨ s = 500) := by
  simp only [generateCatch]
  by_cases h : strIncludes (if t.isError then t.message else "Generation failed") "429" = true
  · rw [if_pos h]; exact ⟨_, _, rfl, Or.inl rfl⟩
  · rw [if_neg h]; exact ⟨_, _, rfl, Or.inr rfl⟩

/-- The LLM route's catch handler always yields a failure response, at
status 429 or 500. -/
theorem llmCatch_failure (t : Thrown) :
    ∃ e s, llmCatch t = { resp := LLMResp.failure e, status := s } ∧ (s = 429 ∨ s = 500) := by
  simp only [llmCatch]
  by_cases h : (t.isError && strIncludes t.message "429") = true
  · rw [if_pos h]; exact ⟨_, _, rfl, Or.inl rfl⟩
  · rw [if_neg h]; exact ⟨_, _, rfl, Or.inr rfl⟩

/-- Claim C9: the image-generation route bounds provider calls by
`maxDuration = 300` seconds and the LLM route by `maxDuration = 60`
seconds, and a timed-out provider call — which surfaces as a thrown
exception at the call boundary — is mapped by both routes to an ordinary
`success:false` provider-error response (a non-200 failure), not to a
distinct outcome: the generate route funnels a thrown Gemini call into its
catch handler, which always produces a failure, and the LLM route's catch
handler likewise. -/
theorem maxDuration_bounds_and_timeout_is_provider_error :
    generateMaxDuration = 300 ∧ llmMaxDuration = 60 ∧
    (∀ (t : Thrown) (calls : List CallTag),
      ∃ e, (generateCatch t calls).resp = GenResp.failure e ∧
        (generateCatch t calls).status ≠ 200) ∧
    (∀ (env : GenEnv) (b : GenerateRequest) (parseErr t : Thrown)
        (flux gpt : FetchOutcome) (url : UrlOutcome),
      b.model.getD "nano-banana-pro" ≠ "azure-flux-pro" →
      b.model.getD "nano-banana-pro" ≠ "azure-gpt-image" →
      optTruthy env.geminiApiKey = true →
      ¬(b.images = none ∨ b.images.getD [] = [] ∨ !optTruthy b.prompt) →
      generatePOST env (some b) parseErr (GeminiOutcome.thrown t) flux gpt url =
        generateCatch t [CallTag.gemini]) ∧
    (∀ t : Thrown, ∃ e, (llmCatch t).resp = LLMResp.failure e ∧ (llmCatch t).status ≠ 200) := by
  refine ⟨rfl, rfl, ?_, ?_, ?_⟩
  · intro t calls
    obtain ⟨e, s, heq, hs⟩ := generateCatch_failure t calls
    refine ⟨e, by rw [heq], by rw [heq]; rcases hs with h | h <;> simp [h]⟩
  · intro env b parseErr t flux gpt url hflux hgpt hkey hval
    simp only [generatePOST]
    rw [if_neg (by simp [hflux]), if_neg (by simp [hgpt]), if_neg (by simp [hkey]),
      if_neg hval]
  · intro t
    obtain ⟨e, s, heq, hs⟩ := llmCatch_failure t
    refine ⟨e, by rw [heq], by rw [heq]; rcases hs with h | h <;> simp [h]⟩

/-- Witness for C9's conditional conjunct at a concrete Gemini request whose
provider call throws. -/
theorem maxDuration_bounds_and_timeout_is_provider_error_witness :
    (({ images := some ["data:image/png;base64,AA=="], prompt := some "p", model := none,
        aspect := none, resolution := none, useGoogleSearch := false, size := none,
        gptImageSize := none, gptImageQuality := none } : GenerateRequest).model.getD
          "nano-banana-pro" ≠ "azure-flux-pro") ∧
    generatePOST { geminiApiKey := some "k", azureApiKey := none, azureGptImageApiKey := none }
      (some { images := some ["data:image/png;base64,AA=="], prompt := some "p", model := none,
              aspect := none, resolution := none, useGoogleSearch := false, size := none,
              gptImageSize := none, gptImageQuality := none })
      (mkError "parse") (GeminiOutcome.thrown (mkError "timeout"))
      (FetchOutcome.thrown (mkError "x")) (FetchOutcome.thrown (mkError "x"))
      (UrlOutcome.thrown (mkError "x")) =
      generateCatch (mkError "timeout") [CallTag.gemini] :=
  ⟨by decide,
    maxDuration_bounds_and_timeout_is_provider_error.2.2.2.1 _ _ _ _ _ _ _
      (by decide) (by decide) (by decide) (by decide)⟩

/-- Claim C5: the generate route dispatches the Azure models to their
handlers before the Gemini "at least one image and prompt are required"
validation: for `azure-flux-pro` and `azure-gpt-image` the response is
exactly the Azure handler's (which never reads the request's images, so a
zero-image request is never rejected for its images), an empty prompt is
the handlers' only request-field rejection (HTTP 400), and with the Azure
key configured and a truthy prompt the provider is always called. -/
theorem azure_models_skip_image_validation :
    (∀ (env : GenEnv) (b : GenerateRequest) (parseErr : Thrown) (gem : GeminiOutcome)
        (flux gpt : FetchOutcome) (url : UrlOutcome),
      b.model = some "azure-flux-pro" →
        generatePOST env (some b) parseErr gem flux gpt url =
          handleAzureFluxGeneration env b.prompt flux url) ∧
    (∀ (env : GenEnv) (b : GenerateRequest) (parseErr : Thrown) (gem : GeminiOutcome)
        (flux gpt : FetchOutcome) (url : UrlOutcome),
      b.model = some "azure-gpt-image" →
        generatePOST env (some b) parseErr gem flux gpt url =
          handleAzureGptImageGeneration env b.prompt gpt url) ∧
    (∀ (env : GenEnv) (p : Option String) (flux : FetchOutcome) (url : UrlOutcome),
      optTruthy env.azureApiKey = true → optTruthy p = false →
        handleAzureFluxGeneration env p flux url =
          { resp := GenResp.failure "Prompt is required for Azure FLUX generation",
            status := 400, calls := [] }) ∧
    (∀ (env : GenEnv) (p : Option String) (gpt : FetchOutcome) (url : UrlOutcome),
      optTruthy env.azureGptImageApiKey = true → optTruthy p = false →
        handleAzureGptImageGeneration env p gpt url =
          { resp := GenResp.failure "Prompt is required for Azure GPT Image generation",
            status := 400, calls := [] }) ∧
    (∀ (env : GenEnv) (p : Option String) (flux : FetchOutcome) (url : UrlOutcome),
      optTruthy env.azureApiKey = true → optTruthy p = true →
        CallTag.azureFlux ∈ (handleAzureFluxGeneration env p flux url).calls) ∧
    (∀ (env : GenEnv) (p : Option String) (gpt : FetchOutcome) (url : UrlOutcome),
      optTruthy env.azureGptImageApiKey = true → optTruthy p = true →
        CallTag.azureGpt ∈ (handleAzureGptImageGeneration env p gpt url).calls) := by
  refine ⟨?_, ?_, ?_, ?_, ?_, ?_⟩
  · intro env b parseErr gem flux gpt url hm
    simp [generatePOST, hm]
  · intro env b parseErr gem flux gpt url hm
    simp [generatePOST, hm]
  · intro env p flux url hkey hp
    simp [handleAzureFluxGeneration, hkey, hp]
  · intro env p gpt url hkey hp
    simp [handleAzureGptImageGeneration, hkey, hp]
  · intro env p flux url hkey hp
    unfold handleAzureFluxGeneration
    rw [if_neg (by simp [hkey]), if_neg (by simp [hp])]
    cases flux with
    | thrown t => simp
    | resp status errorText body =>
        dsimp only
        split
        · simp
        · cases hd : body.data with
          | none => simp
          | some items =>
              cases items with
              | nil => simp
              | cons item rest =>
                  simp only
                  split
                  · simp
                  · split
                    · cases url <;> simp
                    · simp
  · intro env p gpt url hkey hp
    unfold handleAzureGptImageGeneration
    rw [if_neg (by simp [hkey]), if_neg (by simp [hp])]
    cases gpt with
    | thrown t => simp
    | resp status errorText body =>
        dsimp only
        split
        · simp
        · cases hd : body.data with
          | none => simp
          | some items =>
              cases items with
              | nil => simp
              | cons item rest =>
                  simp only
                  split
                  · simp
                  · split
                    · cases url <;> simp
                    · simp

/-- Witness for C5 at a concrete zero-image Azure FLUX request. -/
theorem azure_models_skip_image_validation_witness :
    (({ images := some [], prompt := some "draw", model := some "azure-flux-pro", aspect := none,
        resolution := none, useGoogleSearch := false, size := none, gptImageSize := none,
        gptImageQuality := none } : GenerateRequest).model = some "azure-flux-pro") ∧
    generatePOST { geminiApiKey := none, azureApiKey := some "ak", azureGptImageApiKey := none }
      (some { images := some [], prompt := some "draw", model := some "azure-flux-pro",
              aspect := none, resolution := none, useGoogleSearch := false, size := none,
              gptImageSize := none, gptImageQuality := none })
      (mkError "parse") (GeminiOutcome.ok none)
      (FetchOutcome.resp 500 "boom" { data := none }) (FetchOutcome.resp 500 "boom" { data := none })
      (UrlOutcome.ok "AA==") =
      handleAzureFluxGeneration
        { geminiApiKey := none, azureApiKey := some "ak", azureGptImageApiKey := none }
        (some "draw") (FetchOutcome.resp 500 "boom" { data := none }) (UrlOutcome.ok "AA==") :=
  ⟨rfl,
    azure_models_skip_image_validation.1 _ _ _ _ _ _ _ rfl⟩

/-- Claim C7: when every direct dependency of the target node already holds
valid output, `regenerate` succeeds and re-executes exactly the target:
the resulting node list is the original with only id-matching entries
replaced by their executed version, so every other node (its status, error
and output fields included) is preserved unchanged; when some direct
dependency lacks valid output, `regenerate` fails with the
"missing upstream input" error instead of cascading a re-run. -/
theorem regenerate_exactly_target_or_missing_upstream :
    (∀ (g : Graph) (nodeId : String) (oracle : String → ProviderOutcome),
      (((g.edges.filter (fun e => e.target == nodeId)).map (fun e => e.source)).all
          (fun d => ((findNode g d).bind nodeOutput).isSome)) = true →
      ∃ g', regenerate g nodeId oracle = .ok g' ∧
        g'.edges = g.edges ∧
        g'.nodes = g.nodes.map (fun n => if n.id == nodeId then executeNode oracle n else n) ∧
        ∀ n ∈ g.nodes, n.id ≠ nodeId → n ∈ g'.nodes) ∧
    (∀ (g : Graph) (nodeId : String) (oracle : String → ProviderOutcome),
      (((g.edges.filter (fun e => e.target == nodeId)).map (fun e => e.source)).all
          (fun d => ((findNode g d).bind nodeOutput).isSome)) = false →
      regenerate g nodeId oracle = .error "missing upstream input") := by
  constructor
  · intro g nodeId oracle hdeps
    refine ⟨Graph.mk
        (g.nodes.map (fun n => if n.id == nodeId then executeNode oracle n else n)) g.edges,
      ?_, rfl, rfl, ?_⟩
    · simp only [regenerate]
      rw [if_pos hdeps]
    · intro n hn hne
      simp only [List.mem_map]
      exact ⟨n, hn, by simp [hne]⟩
  · intro g nodeId oracle hdeps
    simp only [regenerate]
    split
    · rename_i hC
      rw [hdeps] at hC
      exact absurd hC (by simp)
    · rfl

/-- Witness for C7: a two-node graph whose single dependency holds output
(regenerate succeeds, re-executing exactly the target), and the same graph
with the dependency's output cleared (regenerate fails with the
missing-upstream-input error). -/
theorem regenerate_exactly_target_or_missing_upstream_witness :
    (((Graph.mk
        [WNode.mk "in1" .imageInput .idle none (some "I") none none none none,
         WNode.mk "nb1" .nanoBanana .idle none none none none none none]
        [WEdge.mk "e1" "in1" .image "nb1" .image]).edges.filter
          (fun e => e.target == "nb1")).map (fun e => e.source)).all
        (fun d => ((findNode (Graph.mk
          [WNode.mk "in1" .imageInput .idle none (some "I") none none none none,
           WNode.mk "nb1" .nanoBanana .idle none none none none none none]
          [WEdge.mk "e1" "in1" .image "nb1" .image]) d).bind nodeOutput).isSome) = true ∧
    (∃ g', regenerate (Graph.mk
        [WNode.mk "in1" .imageInput .idle none (some "I") none none none none,
         WNode.mk "nb1" .nanoBanana .idle none none none none none none]
        [WEdge.mk "e1" "in1" .image "nb1" .image]) "nb1" (fun _ => .success "OUT") = .ok g' ∧
      g'.edges = [WEdge.mk "e1" "in1" .image "nb1" .image] ∧
      g'.nodes = [WNode.mk "in1" .imageInput .idle none (some "I") none none none none,
         WNode.mk "nb1" .nanoBanana .idle none none none none none none].map
          (fun n => if n.id == "nb1" then executeNode (fun _ => .success "OUT") n else n) ∧
      ∀ n ∈ [WNode.mk "in1" .imageInput .idle none (some "I") none none none none,
         WNode.mk "nb1" .nanoBanana .idle none none none none none none],
        n.id ≠ "nb1" → n ∈ g'.nodes) ∧
    regenerate (Graph.mk
        [WNode.mk "in1" .imageInput .idle none none none none none none,
         WNode.mk "nb1" .nanoBanana .idle none none none none none none]
        [WEdge.mk "e1" "in1" .image "nb1" .image]) "nb1" (fun _ => .success "OUT") =
      .error "missing upstream input" :=
  ⟨by decide,
    regenerate_exactly_target_or_missing_upstream.1 _ "nb1" (fun _ => .success "OUT")
      (by decide),
    regenerate_exactly_target_or_missing_upstream.2 _ "nb1" (fun _ => .success "OUT")
      (by decide)⟩

/-- `find?` by key agrees across permutations of a list whose keys are
duplicate-free. -/
theorem find?_key_perm {l l' : List WNode} (h : List.Perm l l')
    (hnd : (l.map (fun n => n.id)).Nodup) (i : String) :
    l.find? (fun n => n.id == i) = l'.find? (fun n => n.id == i) := by
  rw [← List.filter_head? (fun n => n.id == i) l, ← List.filter_head? (fun n => n.id == i) l']
  have hperm := List.Perm.filter (fun n => n.id == i) h
  have hall : ∀ n ∈ l.filter (fun n => n.id == i), n.id = i := by
    intro n hn
    have := List.of_mem_filter hn
    simpa using this
  have hlen : (l.filter (fun n => n.id == i)).length ≤ 1 := by
    have hsub : ((l.filter (fun n => n.id == i)).map (fun n => n.id)).Sublist
        (l.map (fun n => n.id)) :=
      List.Sublist.map _ (List.filter_sublist l)
    have hndf : ((l.filter (fun n => n.id == i)).map (fun n => n.id)).Nodup :=
      List.Nodup.sublist hsub hnd
    rcases hfl : l.filter (fun n => n.id == i) with _ | ⟨a, rest⟩
    · simp [hfl]
    · rcases rest with _ | ⟨b, rest'⟩
      · simp [hfl]
      · exfalso
        rw [hfl] at hndf hall
        have ha : a.id = i := hall a (by simp)
        have hb : b.id = i := hall b (by simp)
        simp [ha, hb] at hndf
  rcases hfl : l.filter (fun n => n.id == i) with _ | ⟨a, rest⟩
  · rw [hfl] at hperm
    rw [hfl, List.Perm.eq_nil hperm.symm]
  · rw [hfl] at hperm hlen
    have hrest : rest = [] := by
      cases rest with
      | nil => rfl
      | cons b r => simp at hlen
    subst hrest
    rw [hfl, List.Perm.eq_singleton hperm.symm]

/-- Claim C8: for every node, `resolveInputs` returns the upstream images as
the edge-creation-ordered list of outputs of the sources of the edges into
the node's image handle, skipping sources whose output is currently null
(the `filterMap` drops exactly the null outputs), and the result is
independent of node creation order: permuting the node list of a graph with
duplicate-free node ids leaves `resolveInputs` unchanged. -/
theorem resolveInputs_edge_order_and_node_order_free :
    (∀ (g : Graph) (nodeId : String),
      (resolveInputs g nodeId).images =
        (g.edges.filter
            (fun e => e.targetHandle == Handle.image && e.target == nodeId)).filterMap
          (fun e => (findNode g e.source).bind imageOutput)) ∧
    (∀ (g : Graph) (nodes' : List WNode) (nodeId : String),
      (g.nodes.map (fun n => n.id)).Nodup → List.Perm g.nodes nodes' →
      resolveInputs { g with nodes := nodes' } nodeId = resolveInputs g nodeId) := by
  constructor
  · intro g nodeId
    simp only [resolveInputs, List.filter_filter]
  · intro g nodes' nodeId hnd hperm
    have hfn : ∀ s, findNode { g with nodes := nodes' } s = findNode g s := by
      intro s
      simp only [findNode]
      exact (find?_key_perm hperm hnd s).symm
    simp only [resolveInputs, hfn]

/-- Witness for C8's permutation conjunct: the two-image fan-in scenario
with the node list scrambled (the generation node first, the two inputs in
reverse creation order) resolves identically, and concretely to the two
images in edge-creation order. -/
theorem resolveInputs_edge_order_and_node_order_free_witness :
    (([WNode.mk "in1" .imageInput .idle none (some "IMG1") none none none none,
       WNode.mk "in2" .imageInput .idle none (some "IMG2") none none none none,
       WNode.mk "nb1" .nanoBanana .idle none none none none none none]).map
        (fun n => n.id)).Nodup ∧
    List.Perm
      [WNode.mk "in1" .imageInput .idle none (some "IMG1") none none none none,
       WNode.mk "in2" .imageInput .idle none (some "IMG2") none none none none,
       WNode.mk "nb1" .nanoBanana .idle none none none none none none]
      [WNode.mk "nb1" .nanoBanana .idle none none none none none none,
       WNode.mk "in2" .imageInput .idle none (some "IMG2") none none none none,
       WNode.mk "in1" .imageInput .idle none (some "IMG1") none none none none] ∧
    resolveInputs (Graph.mk
      [WNode.mk "nb1" .nanoBanana .idle none none none none none none,
       WNode.mk "in2" .imageInput .idle none (some "IMG2") none none none none,
       WNode.mk "in1" .imageInput .idle none (some "IMG1") none none none none]
      [WEdge.mk "e1" "in1" .image "nb1" .image,
       WEdge.mk "e2" "in2" .image "nb1" .image]) "nb1" =
    resolveInputs (Graph.mk
      [WNode.mk "in1" .imageInput .idle none (some "IMG1") none none none none,
       WNode.mk "in2" .imageInput .idle none (some "IMG2") none none none none,
       WNode.mk "nb1" .nanoBanana .idle none none none none none none]
      [WEdge.mk "e1" "in1" .image "nb1" .image,
       WEdge.mk "e2" "in2" .image "nb1" .image]) "nb1" ∧
    resolveInputs (Graph.mk
      [WNode.mk "nb1" .nanoBanana .idle none none none none none none,
       WNode.mk "in2" .imageInput .idle none (some "IMG2") none none none none,
       WNode.mk "in1" .imageInput .idle none (some "IMG1") none none none none]
      [WEdge.mk "e1" "in1" .image "nb1" .image,
       WEdge.mk "e2" "in2" .image "nb1" .image]) "nb1" =
      ResolvedInputs.mk ["IMG1", "IMG2"] none := by
  refine ⟨by decide, by decide, ?_, by decide⟩
  have h := resolveInputs_edge_order_and_node_order_free.2
    (Graph.mk
      [WNode.mk "in1" .imageInput .idle none (some "IMG1") none none none none,
       WNode.mk "in2" .imageInput .idle none (some "IMG2") none none none none,
       WNode.mk "nb1" .nanoBanana .idle none none none none none none]
      [WEdge.mk "e1" "in1" .image "nb1" .image,
       WEdge.mk "e2" "in2" .image "nb1" .image])
    [WNode.mk "nb1" .nanoBanana .idle none none none none none none,
     WNode.mk "in2" .imageInput .idle none (some "IMG2") none none none none,
     WNode.mk "in1" .imageInput .idle none (some "IMG1") none none none none]
    "nb1" (by decide) (by decide)
  exact h

/-- Every node of a chain (and the chain's head, via the closing edge) has a
predecessor within the chain. -/
theorem chainTo_pred (edges : List WEdge) (first : String) :
    ∀ (ws : List String) (cur : String), chainTo edges first cur ws = true →
      (∃ u ∈ cur :: ws, edgeB edges u first = true) ∧
      ∀ w ∈ ws, ∃ u ∈ cur :: ws, edgeB edges u w = true := by
  intro ws
  induction ws with
  | nil =>
      intro cur h
      exact ⟨⟨cur, by simp, h⟩, by simp⟩
  | cons w ws ih =>
      intro cur h
      simp only [chainTo, Bool.and_eq_true] at h
      obtain ⟨he, hc⟩ := h
      obtain ⟨⟨u, hu, huf⟩, hball⟩ := ih w hc
      refine ⟨⟨u, ?_, huf⟩, ?_⟩
      · simp only [List.mem_cons] at hu ⊢
        tauto
      · intro v hv
        rcases List.mem_cons.mp hv with rfl | hv'
        · exact ⟨cur, by simp, he⟩
        · obtain ⟨u', hu', hel⟩ := hball v hv'
          refine ⟨u', ?_, hel⟩
          simp only [List.mem_cons] at hu' ⊢
          tauto

/-- Every node of a directed cycle has a predecessor within the cycle. -/
theorem cycle_pred {edges : List WEdge} {l : List String}
    (h : isCycleList edges l = true) :
    ∀ v ∈ l, ∃ u ∈ l, edgeB edges u v = true := by
  cases l with
  | nil => simp [isCycleList] at h
  | cons v0 vs =>
      have h' := chainTo_pred edges v0 vs v0 h
      intro v hv
      rcases List.mem_cons.mp hv with rfl | hv'
      · exact h'.1
      · exact h'.2 v hv'

/-- A node with an incoming edge from a node still remaining is not ready. -/
theorem not_ready_of_pred {edges : List WEdge} {remaining : List String} {v u : String}
    (hu : u ∈ remaining) (he : edgeB edges u v = true) :
    v ∉ readyIds edges remaining := by
  intro hv
  simp only [readyIds, List.mem_filter] at hv
  obtain ⟨-, hall⟩ := hv
  rw [List.all_eq_true] at hall
  simp only [edgeB, List.any_eq_true, Bool.and_eq_true, beq_iff_eq] at he
  obtain ⟨e, hemem, hsrc, htgt⟩ := he
  have := hall e hemem
  simp only [decide_eq_true_eq] at this
  rcases this with hne | hnmem
  · exact hne htgt
  · exact hnmem (hsrc ▸ hu)

/-- When a cycle lives inside `remaining`, the batch-building loop can never
drain it: it ends in the error (blocked-residual) branch. -/
theorem planAux_error_of_cycle (edges : List WEdge) {l : List String}
    (hc : isCycleList edges l = true) (hne : l ≠ []) :
    ∀ (fuel : Nat) (remaining : List String), (∀ v ∈ l, v ∈ remaining) →
      ∃ r, planAux edges fuel remaining = .error r := by
  intro fuel
  induction fuel with
  | zero =>
      intro remaining hsub
      cases remaining with
      | nil =>
          cases l with
          | nil => exact absurd rfl hne
          | cons a as => exact absurd (hsub a (by simp)) (by simp)
      | cons a as => exact ⟨a :: as, rfl⟩
  | succ fuel ih =>
      intro remaining hsub
      cases remaining with
      | nil =>
          cases l with
          | nil => exact absurd rfl hne
          | cons a as => exact absurd (hsub a (by simp)) (by simp)
      | cons a as =>
          by_cases hrdy : (readyIds edges (a :: as)).isEmpty = true
          · exact ⟨a :: as, by simp [planAux, hrdy]⟩
          · have hsub' : ∀ v ∈ l,
                v ∈ (a :: as).filter (fun v => v ∉ readyIds edges (a :: as)) := by
              intro v hv
              refine List.mem_filter.mpr ⟨hsub v hv, ?_⟩
              have hnr : v ∉ readyIds edges (a :: as) := by
                obtain ⟨u, hu, he⟩ := cycle_pred hc v hv
                exact not_ready_of_pred (hsub u hu) he
              simpa using hnr
            obtain ⟨r, hr⟩ := ih _ hsub'
            refine ⟨r, ?_⟩
            simp only [planAux, hrdy, if_false, Bool.false_eq_true]
            rw [hr]

/-- A graph with a directed cycle has no plan: `plan` reports the blocked
residual. -/
theorem plan_error_of_hasCycle {g : Graph} (h : HasCycle g) :
    ∃ r, plan g = .error r := by
  obtain ⟨l, hc, hmem⟩ := h
  have hne : l ≠ [] := by
    cases l with
    | nil => simp [isCycleList] at hc
    | cons a as => simp
  exact planAux_error_of_cycle g.edges hc hne g.nodes.length _ hmem

/-- Claim C1: for every graph containing a directed cycle among the
data-dependency edges, `plan()` reports a cycle error, the run fails
validation with that cycle error and returns the graph untouched, and no
node executes: a graph whose nodes are all idle stays all idle. -/
theorem cycle_plan_error_and_no_execution (g : Graph) (oracle : String → ProviderOutcome)
    (h : HasCycle g) :
    (∃ residual, plan g = .error residual ∧
      run g oracle = (RunOutcome.validationFailed (RunError.cycleError residual), g)) ∧
    ((∀ n ∈ g.nodes, n.status = NodeStatus.idle) →
      ∀ n ∈ (run g oracle).2.nodes, n.status = NodeStatus.idle) := by
  obtain ⟨r, hr⟩ := plan_error_of_hasCycle h
  have hrun : run g oracle = (RunOutcome.validationFailed (RunError.cycleError r), g) := by
    simp [run, validateRun, hr]
  exact ⟨⟨r, hr, hrun⟩, fun hidle n hn => hidle n (by rw [hrun] at hn; exact hn)⟩

/-- Witness for C1 at a concrete two-node cyclic graph. -/
theorem cycle_plan_error_and_no_execution_witness :
    HasCycle (Graph.mk
      [WNode.mk "a" .nanoBanana .idle none none none none none none,
       WNode.mk "b" .nanoBanana .idle none none none none none none]
      [WEdge.mk "e1" "a" .image "b" .image,
       WEdge.mk "e2" "b" .image "a" .image]) ∧
    (∃ residual, plan (Graph.mk
      [WNode.mk "a" .nanoBanana .idle none none none none none none,
       WNode.mk "b" .nanoBanana .idle none none none none none none]
      [WEdge.mk "e1" "a" .image "b" .image,
       WEdge.mk "e2" "b" .image "a" .image]) = .error residual ∧
      run (Graph.mk
        [WNode.mk "a" .nanoBanana .idle none none none none none none,
         WNode.mk "b" .nanoBanana .idle none none none none none none]
        [WEdge.mk "e1" "a" .image "b" .image,
         WEdge.mk "e2" "b" .image "a" .image]) (fun _ => .success "OUT") =
        (RunOutcome.validationFailed (RunError.cycleError residual), Graph.mk
          [WNode.mk "a" .nanoBanana .idle none none none none none none,
           WNode.mk "b" .nanoBanana .idle none none none none none none]
          [WEdge.mk "e1" "a" .image "b" .image,
           WEdge.mk "e2" "b" .image "a" .image])) ∧
    (∀ n ∈ (run (Graph.mk
        [WNode.mk "a" .nanoBanana .idle none none none none none none,
         WNode.mk "b" .nanoBanana .idle none none none none none none]
        [WEdge.mk "e1" "a" .image "b" .image,
         WEdge.mk "e2" "b" .image "a" .image]) (fun _ => .success "OUT")).2.nodes,
      n.status = NodeStatus.idle) := by
  have hcy : HasCycle (Graph.mk
      [WNode.mk "a" .nanoBanana .idle none none none none none none,
       WNode.mk "b" .nanoBanana .idle none none none none none none]
      [WEdge.mk "e1" "a" .image "b" .image,
       WEdge.mk "e2" "b" .image "a" .image]) := ⟨["a", "b"], by decide, by decide⟩
  have h := cycle_plan_error_and_no_execution _ (fun _ => .success "OUT") hcy
  exact ⟨hcy, h.1, h.2 (by decide)⟩

/-- Claim C3: a generation node whose resolved text input is empty (absent
or the empty string, e.g. fed by an empty prompt node) makes run validation
fail up front with a missing-text-input error — the run returns the graph
untouched, so no node transitions to `loading` — and, at the provider
boundary, a generate request for a Gemini model with an empty prompt or an
empty images list is answered `success:false` with HTTP 400 and no
provider call is made (the result's call list is empty). -/
theorem empty_text_fails_validation_and_gemini_400 :
    (∀ (g : Graph) (oracle : String → ProviderOutcome) (n : WNode),
      n ∈ g.nodes → isGeneration n = true →
      textMissing (resolveInputs g n.id).text = true →
      (plan g).isOk = true →
      (∃ m, validateRun g = some (RunError.missingTextInput m) ∧
        run g oracle = (RunOutcome.validationFailed (RunError.missingTextInput m), g)) ∧
      ((∀ k ∈ g.nodes, k.status ≠ NodeStatus.loading) →
        ∀ k ∈ (run g oracle).2.nodes, k.status ≠ NodeStatus.loading)) ∧
    (∀ (env : GenEnv) (b : GenerateRequest) (parseErr : Thrown) (gem : GeminiOutcome)
        (flux gpt : FetchOutcome) (url : UrlOutcome),
      b.model.getD "nano-banana-pro" ≠ "azure-flux-pro" →
      b.model.getD "nano-banana-pro" ≠ "azure-gpt-image" →
      optTruthy env.geminiApiKey = true →
      (b.images = none ∨ b.images.getD [] = [] ∨ (!optTruthy b.prompt) = true) →
      generatePOST env (some b) parseErr gem flux gpt url =
        { resp := GenResp.failure "At least one image and prompt are required",
          status := 400, calls := [] }) := by
  constructor
  · intro g oracle n hn hgen hmiss hok
    cases hpl : plan g with
    | error r => rw [hpl] at hok; simp [Except.isOk, Except.toBool] at hok
    | ok batches =>
        have hfind : (g.nodes.find?
            (fun n => isGeneration n && textMissing (resolveInputs g n.id).text)).isSome :=
          List.find?_isSome.mpr ⟨n, hn, by simp [hgen, hmiss]⟩
        obtain ⟨m, hm⟩ := Option.isSome_iff_exists.mp hfind
        have hval : validateRun g = some (RunError.missingTextInput m.id) := by
          simp [validateRun, hpl, hm]
        have hrun : run g oracle =
            (RunOutcome.validationFailed (RunError.missingTextInput m.id), g) := by
          simp [run, hval]
        exact ⟨⟨m.id, hval, hrun⟩,
          fun hld k hk => hld k (by rw [hrun] at hk; exact hk)⟩
  · intro env b parseErr gem flux gpt url h1 h2 hkey hval
    simp only [generatePOST]
    rw [if_neg (by simp [h1]), if_neg (by simp [h2]), if_neg (by simp [hkey]), if_pos hval]

/-- Witness for C3: a prompt node carrying the empty string feeding a
generation node (validation fails, the graph is untouched), and a concrete
empty-images Gemini request (rejected 400 with no provider call). -/
theorem empty_text_fails_validation_and_gemini_400_witness :
    ((WNode.mk "nb1" .nanoBanana .idle none none none none none none) ∈ (Graph.mk
      [WNode.mk "p1" .prompt .idle none none none (some "") none none,
       WNode.mk "nb1" .nanoBanana .idle none none none none none none]
      [WEdge.mk "e1" "p1" .text "nb1" .text]).nodes ∧
     isGeneration (WNode.mk "nb1" .nanoBanana .idle none none none none none none) = true ∧
     textMissing (resolveInputs (Graph.mk
      [WNode.mk "p1" .prompt .idle none none none (some "") none none,
       WNode.mk "nb1" .nanoBanana .idle none none none none none none]
      [WEdge.mk "e1" "p1" .text "nb1" .text]) "nb1").text = true ∧
     (plan (Graph.mk
      [WNode.mk "p1" .prompt .idle none none none (some "") none none,
       WNode.mk "nb1" .nanoBanana .idle none none none none none none]
      [WEdge.mk "e1" "p1" .text "nb1" .text])).isOk = true) ∧
    (∃ m, validateRun (Graph.mk
      [WNode.mk "p1" .prompt .idle none none none (some "") none none,
       WNode.mk "nb1" .nanoBanana .idle none none none none none none]
      [WEdge.mk "e1" "p1" .text "nb1" .text]) = some (RunError.missingTextInput m) ∧
      run (Graph.mk
        [WNode.mk "p1" .prompt .idle none none none (some "") none none,
         WNode.mk "nb1" .nanoBanana .idle none none none none none none]
        [WEdge.mk "e1" "p1" .text "nb1" .text]) (fun _ => .success "OUT") =
        (RunOutcome.validationFailed (RunError.missingTextInput m), Graph.mk
          [WNode.mk "p1" .prompt .idle none none none (some "") none none,
           WNode.mk "nb1" .nanoBanana .idle none none none none none none]
          [WEdge.mk "e1" "p1" .text "nb1" .text])) ∧
    generatePOST (GenEnv.mk (some "k") none none)
      (some (GenerateRequest.mk (some []) (some "add hat") none none none false
        none none none))
      (mkError "parse") (GeminiOutcome.ok none) (FetchOutcome.thrown (mkError "x"))
      (FetchOutcome.thrown (mkError "x")) (UrlOutcome.thrown (mkError "x")) =
      { resp := GenResp.failure "At least one image and prompt are required",
        status := 400, calls := [] } := by
  refine ⟨⟨by decide, by decide, by decide, by decide⟩, ?_, ?_⟩
  · exact (empty_text_fails_validation_and_gemini_400.1 _ (fun _ => .success "OUT")
      (WNode.mk "nb1" .nanoBanana .idle none none none none none none)
      (by decide) (by decide) (by decide) (by decide)).1
  · exact empty_text_fails_validation_and_gemini_400.2 _ _ _ _ _ _ _
      (by decide) (by decide) (by decide) (by decide)

/-- Appending to a non-empty string is non-empty. -/
theorem str_append_ne_empty (a b : String) (h : a ≠ "") : a ++ b ≠ "" := by
  intro hc
  have hd : (a ++ b).data = ("" : String).data := by rw [hc]
  have hd2 : a.data ++ b.data = [] := hd
  have ha : a.data = [] := (List.append_eq_nil.mp hd2).1
  exact h (by cases a; simp_all)

/-- A truthy optional string holds a non-empty string. -/
theorem optTruthy_getD_ne_empty {o : Option String} (h : optTruthy o = true) :
    o.getD "" ≠ "" := by
  cases o with
  | none => simp [optTruthy] at h
  | some s =>
      intro hc
      simp only [Option.getD] at hc
      subst hc
      simp only [optTruthy] at h
      exact absurd h (by decide)

/-- The two possible results of the generate route's catch handler. -/
theorem generateCatch_cases (t : Thrown) (calls : List CallTag) :
    generateCatch t calls =
      { resp := GenResp.failure "Rate limit reached. Please wait and try again.",
        status := 429, calls := calls } ∨
    ∃ d, generateCatch t calls =
      { resp := GenResp.failure ((if t.isError then t.message else "Generation failed") ++ d),
        status := 500, calls := calls } := by
  simp only [generateCatch]
  by_cases h429 : strIncludes (if t.isError then t.message else "Generation failed") "429" = true
  · rw [if_pos h429]; exact Or.inl rfl
  · rw [if_neg h429]; exact Or.inr ⟨_, rfl⟩

/-- With a non-empty thrown message, the generate catch handler's error
string is non-empty. -/
theorem generateCatch_error_nonempty {t : Thrown} (h : ThrownMsgOK t) (calls : List CallTag) :
    GenErrorsNonempty (generateCatch t calls) := by
  intro e he
  rcases generateCatch_cases t calls with hc | ⟨d, hc⟩
  · rw [hc] at he
    have he' : GenResp.failure "Rate limit reached. Please wait and try again." =
        GenResp.failure e := he
    injection he' with h'
    subst h'
    decide
  · rw [hc] at he
    have he' : GenResp.failure
        ((if t.isError then t.message else "Generation failed") ++ d) = GenResp.failure e := he
    injection he' with h'
    subst h'
    refine str_append_ne_empty _ _ ?_
    by_cases hie : t.isError = true
    · rw [if_pos hie]; exact h hie
    · rw [if_neg hie]; decide

/-- The two possible results of the LLM route's catch handler. -/
theorem llmCatch_cases (t : Thrown) :
    llmCatch t =
      { resp := LLMResp.failure "Rate limit reached. Please wait and try again.",
        status := 429 } ∨
    llmCatch t =
      { resp := LLMResp.failure (if t.isError then t.message else "LLM generation failed"),
        status := 500 } := by
  simp only [llmCatch]
  by_cases h429 : (t.isError && strIncludes t.message "429") = true
  · rw [if_pos h429]; exact Or.inl rfl
  · rw [if_neg h429]; exact Or.inr rfl

/-- With a non-empty thrown message, the LLM catch handler's error string is
non-empty. -/
theorem llmCatch_error_nonempty {t : Thrown} (h : ThrownMsgOK t) :
    LLMErrorsNonempty (llmCatch t) := by
  intro e he
  rcases llmCatch_cases t with hc | hc
  · rw [hc] at he
    have he' : LLMResp.failure "Rate limit reached. Please wait and try again." =
        LLMResp.failure e := he
    injection he' with h'
    subst h'
    decide
  · rw [hc] at he
    have he' : LLMResp.failure (if t.isError then t.message else "LLM generation failed") =
        LLMResp.failure e := he
    injection he' with h'
    subst h'
    by_cases hie : t.isError = true
    · rw [if_pos hie]; exact h hie
    · rw [if_neg hie]; decide

/-- The Azure FLUX handler always produces the uniform shape, with non-empty
error strings on every failure path. -/
theorem handleAzureFlux_uniform (env : GenEnv) (p : Option String) (flux : FetchOutcome)
    (url : UrlOutcome) :
    GenUniform (handleAzureFluxGeneration env p flux url) ∧
    GenErrorsNonempty (handleAzureFluxGeneration env p flux url) := by
  unfold handleAzureFluxGeneration
  split
  · refine ⟨Or.inr ⟨_, rfl, by decide⟩, fun e he => ?_⟩
    have he' : GenResp.failure
        "Azure API key not configured. Add AZURE_API_KEY to .env.local" =
        GenResp.failure e := he
    injection he' with h'
    subst h'
    decide
  · split
    · refine ⟨Or.inr ⟨_, rfl, by decide⟩, fun e he => ?_⟩
      have he' : GenResp.failure "Prompt is required for Azure FLUX generation" =
          GenResp.failure e := he
      injection he' with h'
      subst h'
      decide
    · cases flux with
      | thrown t =>
          dsimp only
          refine ⟨Or.inr ⟨_, rfl, by dsimp only; decide⟩, fun e he => ?_⟩
          have he' : GenResp.failure ("Azure FLUX generation failed: " ++
              (if t.isError then t.message else "Unknown error")) = GenResp.failure e := he
          injection he' with h'
          subst h'
          exact str_append_ne_empty _ _ (by decide)
      | resp status errorText body =>
          dsimp only
          split
          · rename_i hok
            have hok' : status < 200 ∨ 300 ≤ status := by simpa using hok
            refine ⟨Or.inr ⟨_, rfl, ?_⟩, fun e he => ?_⟩
            · dsimp only
              omega
            · have he' : GenResp.failure ("Azure FLUX API error: " ++ toString status ++
                  " - " ++ errorText.take 200) = GenResp.failure e := he
              injection he' with h'
              subst h'
              exact str_append_ne_empty _ _
                (str_append_ne_empty _ _ (str_append_ne_empty _ _ (by decide)))
          · cases hd : body.data with
            | none =>
                dsimp only
                refine ⟨Or.inr ⟨_, rfl, by dsimp only; decide⟩, fun e he => ?_⟩
                have he' : GenResp.failure "No image in Azure FLUX response" =
                    GenResp.failure e := he
                injection he' with h'
                subst h'
                decide
            | some items =>
                cases items with
                | nil =>
                    dsimp only
                    refine ⟨Or.inr ⟨_, rfl, by dsimp only; decide⟩, fun e he => ?_⟩
                    have he' : GenResp.failure "No image in Azure FLUX response" =
                        GenResp.failure e := he
                    injection he' with h'
                    subst h'
                    decide
                | cons item rest =>
                    dsimp only
                    split
                    · exact ⟨Or.inl ⟨_, rfl, rfl⟩, fun e he => by simp at he⟩
                    · split
                      · cases url with
                        | ok b64 => exact ⟨Or.inl ⟨_, rfl, rfl⟩, fun e he => by simp at he⟩
                        | thrown t =>
                            dsimp only
                            refine ⟨Or.inr ⟨_, rfl, by dsimp only; decide⟩, fun e he => ?_⟩
                            have he' : GenResp.failure ("Azure FLUX generation failed: " ++
                                (if t.isError then t.message else "Unknown error")) =
                                GenResp.failure e := he
                            injection he' with h'
                            subst h'
                            exact str_append_ne_empty _ _ (by decide)
                      · refine ⟨Or.inr ⟨_, rfl, by dsimp only; decide⟩, fun e he => ?_⟩
                        have he' : GenResp.failure "No image in Azure FLUX response" =
                            GenResp.failure e := he
                        injection he' with h'
                        subst h'
                        decide

/-- The Azure GPT Image handler always produces the uniform shape, with
non-empty error strings on every failure path. -/
theorem handleAzureGpt_uniform (env : GenEnv) (p : Option String) (gpt : FetchOutcome)
    (url : UrlOutcome) :
    GenUniform (handleAzureGptImageGeneration env p gpt url) ∧
    GenErrorsNonempty (handleAzureGptImageGeneration env p gpt url) := by
  unfold handleAzureGptImageGeneration
  split
  · refine ⟨Or.inr ⟨_, rfl, by decide⟩, fun e he => ?_⟩
    have he' : GenResp.failure
        "Azure GPT Image API key not configured. Add AZURE_GPT_IMAGE_API_KEY to .env.local" =
        GenResp.failure e := he
    injection he' with h'
    subst h'
    decide
  · split
    · refine ⟨Or.inr ⟨_, rfl, by decide⟩, fun e he => ?_⟩
      have he' : GenResp.failure "Prompt is required for Azure GPT Image generation" =
          GenResp.failure e := he
      injection he' with h'
      subst h'
      decide
    · cases gpt with
      | thrown t =>
          dsimp only
          refine ⟨Or.inr ⟨_, rfl, by dsimp only; decide⟩, fun e he => ?_⟩
          have he' : GenResp.failure ("Azure GPT Image generation failed: " ++
              (if t.isError then t.message else "Unknown error")) = GenResp.failure e := he
          injection he' with h'
          subst h'
          exact str_append_ne_empty _ _ (by decide)
      | resp status errorText body =>
          dsimp only
          split
          · rename_i hok
            have hok' : status < 200 ∨ 300 ≤ status := by simpa using hok
            refine ⟨Or.inr ⟨_, rfl, ?_⟩, fun e he => ?_⟩
            · dsimp only
              omega
            · have he' : GenResp.failure ("Azure GPT Image API error: " ++ toString status ++
                  " - " ++ errorText.take 200) = GenResp.failure e := he
              injection he' with h'
              subst h'
              exact str_append_ne_empty _ _
                (str_append_ne_empty _ _ (str_append_ne_empty _ _ (by decide)))
          · cases hd : body.data with
            | none =>
                dsimp only
                refine ⟨Or.inr ⟨_, rfl, by dsimp only; decide⟩, fun e he => ?_⟩
                have he' : GenResp.failure "No image in Azure GPT Image response" =
                    GenResp.failure e := he
                injection he' with h'
                subst h'
                decide
            | some items =>
                cases items with
                | nil =>
                    dsimp only
                    refine ⟨Or.inr ⟨_, rfl, by dsimp only; decide⟩, fun e he => ?_⟩
                    have he' : GenResp.failure "No image in Azure GPT Image response" =
                        GenResp.failure e := he
                    injection he' with h'
                    subst h'
                    decide
                | cons item rest =>
                    dsimp only
                    split
                    · exact ⟨Or.inl ⟨_, rfl, rfl⟩, fun e he => by simp at he⟩
                    · split
                      · cases url with
                        | ok b64 => exact ⟨Or.inl ⟨_, rfl, rfl⟩, fun e he => by simp at he⟩
                        | thrown t =>
                            dsimp only
                            refine ⟨Or.inr ⟨_, rfl, by dsimp only; decide⟩, fun e he => ?_⟩
                            have he' : GenResp.failure ("Azure GPT Image generation failed: " ++
                                (if t.isError then t.message else "Unknown error")) =
                                GenResp.failure e := he
                            injection he' with h'
                            subst h'
                            exact str_append_ne_empty _ _ (by decide)
                      · refine ⟨Or.inr ⟨_, rfl, by dsimp only; decide⟩, fun e he => ?_⟩
                        have he' : GenResp.failure "No image in Azure GPT Image response" =
                            GenResp.failure e := he
                        injection he' with h'
                        subst h'
                        decide

/-- The Gemini response processing yields either a success at 200 or a
non-empty failure at 500. -/
theorem geminiExtract_cases (c : Option (List Candidate)) :
    (∃ i, geminiExtract c = (GenResp.success i, 200)) ∨
    (∃ e, geminiExtract c = (GenResp.failure e, 500) ∧ e ≠ "") := by
  unfold geminiExtract
  cases c with
  | none => exact Or.inr ⟨_, rfl, by decide⟩
  | some cands =>
      cases cands with
      | nil => exact Or.inr ⟨_, rfl, by decide⟩
      | cons cand tail =>
          dsimp only
          cases hp : cand.content.bind (fun ct => ct.parts) with
          | none => exact Or.inr ⟨_, rfl, by decide⟩
          | some parts =>
              dsimp only
              cases hf : parts.find?
                  (fun p => optTruthy (p.inlineData.bind (fun d => d.data))) with
              | some p => exact Or.inl ⟨_, rfl⟩
              | none =>
                  dsimp only
                  cases ht : parts.find? (fun p => optTruthy p.text) with
                  | some p =>
                      exact Or.inr ⟨_, rfl, str_append_ne_empty _ _ (by decide)⟩
                  | none => exact Or.inr ⟨_, rfl, by decide⟩

/-- The generate route's `POST` always produces the uniform shape, and its
error strings are non-empty whenever the thrown values carry non-empty
messages. -/
theorem generatePOST_master (env : GenEnv) (body : Option GenerateRequest) (parseErr : Thrown)
    (gem : GeminiOutcome) (flux gpt : FetchOutcome) (url : UrlOutcome) :
    GenUniform (generatePOST env body parseErr gem flux gpt url) ∧
    ((ThrownMsgOK parseErr ∧ GeminiOutcomeOK gem) →
      GenErrorsNonempty (generatePOST env body parseErr gem flux gpt url)) := by
  cases body with
  | none =>
      dsimp only [generatePOST]
      obtain ⟨e, s, heq, hs⟩ := generateCatch_failure parseErr []
      constructor
      · rw [heq]
        exact Or.inr ⟨e, rfl, by rcases hs with h | h <;> simp [h]⟩
      · intro hok
        exact generateCatch_error_nonempty hok.1 []
  | some b =>
      simp only [generatePOST]
      by_cases h1 : (b.model.getD "nano-banana-pro" == "azure-flux-pro") = true
      · rw [if_pos h1]
        exact ⟨(handleAzureFlux_uniform env b.prompt flux url).1,
          fun _ => (handleAzureFlux_uniform env b.prompt flux url).2⟩
      · rw [if_neg h1]
        by_cases h2 : (b.model.getD "nano-banana-pro" == "azure-gpt-image") = true
        · rw [if_pos h2]
          exact ⟨(handleAzureGpt_uniform env b.prompt gpt url).1,
            fun _ => (handleAzureGpt_uniform env b.prompt gpt url).2⟩
        · rw [if_neg h2]
          by_cases hkey : (!optTruthy env.geminiApiKey) = true
          · rw [if_pos hkey]
            refine ⟨Or.inr ⟨_, rfl, by dsimp only; decide⟩, fun _ e he => ?_⟩
            have he' : GenResp.failure ("Gemini API key not configured for model \"" ++
                b.model.getD "nano-banana-pro" ++
                "\". Either add GEMINI_API_KEY to .env.local or switch to Azure FLUX Pro model.") =
                GenResp.failure e := he
            injection he' with h'
            subst h'
            exact str_append_ne_empty _ _ (str_append_ne_empty _ _ (by decide))
          · rw [if_neg hkey]
            by_cases hval : b.images = none ∨ b.images.getD [] = [] ∨
                (!optTruthy b.prompt) = true
            · rw [if_pos hval]
              refine ⟨Or.inr ⟨_, rfl, by decide⟩, fun _ e he => ?_⟩
              have he' : GenResp.failure "At least one image and prompt are required" =
                  GenResp.failure e := he
              injection he' with h'
              subst h'
              decide
            · rw [if_neg hval]
              cases gem with
              | thrown t =>
                  dsimp only
                  obtain ⟨e, s, heq, hs⟩ := generateCatch_failure t [CallTag.gemini]
                  constructor
                  · rw [heq]
                    exact Or.inr ⟨e, rfl, by rcases hs with h | h <;> simp [h]⟩
                  · intro hok
                    exact generateCatch_error_nonempty hok.2 [CallTag.gemini]
              | ok cands =>
                  dsimp only
                  rcases geminiExtract_cases cands with ⟨i, hgi⟩ | ⟨e, hge, hne⟩
                  · rw [hgi]
                    exact ⟨Or.inl ⟨i, rfl, rfl⟩, fun _ e' he' => by simp at he'⟩
                  · rw [hge]
                    refine ⟨Or.inr ⟨e, rfl, by dsimp only; decide⟩, fun _ e' he' => ?_⟩
                    have he'' : GenResp.failure e = GenResp.failure e' := he'
                    injection he'' with h'
                    subst h'
                    exact hne

/-- The possible results of `generateWithGoogle`: a text, or a thrown value
whose message is non-empty provided the SDK outcome's is. -/
theorem generateWithGoogle_cases (env : LLMEnv) (outcome : GoogleOutcome) :
    (∃ s, generateWithGoogle env outcome = .ok s) ∨
    (∃ t, generateWithGoogle env outcome = .error t ∧
      (GoogleOutcomeOK outcome → ThrownMsgOK t)) := by
  unfold generateWithGoogle
  by_cases hkey : (!optTruthy env.geminiApiKey) = true
  · rw [if_pos hkey]
    exact Or.inr ⟨_, rfl, fun _ _ => by decide⟩
  · rw [if_neg hkey]
    cases outcome with
    | thrown t => exact Or.inr ⟨t, rfl, fun hok => hok⟩
    | resp text =>
        dsimp only
        split
        · exact Or.inl ⟨_, rfl⟩
        · exact Or.inr ⟨_, rfl, fun _ _ => by decide⟩

/-- The possible results of `generateWithOpenAI`: a text, or a thrown value
whose message is non-empty provided the fetch outcome's is. -/
theorem generateWithOpenAI_cases (env : LLMEnv) (outcome : OpenAIOutcome) :
    (∃ s, generateWithOpenAI env outcome = .ok s) ∨
    (∃ t, generateWithOpenAI env outcome = .error t ∧
      (OpenAIOutcomeOK outcome → ThrownMsgOK t)) := by
  unfold generateWithOpenAI
  by_cases hkey : (!optTruthy env.openaiApiKey) = true
  · rw [if_pos hkey]
    exact Or.inr ⟨_, rfl, fun _ _ => by decide⟩
  · rw [if_neg hkey]
    cases outcome with
    | thrown t => exact Or.inr ⟨t, rfl, fun hok => hok⟩
    | resp status errMessage content =>
        dsimp only
        split
        · refine Or.inr ⟨_, rfl, fun _ _ => ?_⟩
          by_cases hm : optTruthy errMessage = true
          · rw [if_pos hm]
            exact optTruthy_getD_ne_empty hm
          · rw [if_neg hm]
            exact str_append_ne_empty _ _ (by decide)
        · split
          · exact Or.inl ⟨_, rfl⟩
          · exact Or.inr ⟨_, rfl, fun _ _ => by decide⟩

/-- The LLM route's `POST` always produces the uniform shape, and its error
strings are non-empty whenever the thrown values carry non-empty
messages. -/
theorem llmPOST_master (env : LLMEnv) (body : Option LLMRequest) (parseErr : Thrown)
    (googleOut : GoogleOutcome) (openaiOut : OpenAIOutcome) :
    LLMUniform (llmPOST env body parseErr googleOut openaiOut) ∧
    ((ThrownMsgOK parseErr ∧ GoogleOutcomeOK googleOut ∧ OpenAIOutcomeOK openaiOut) →
      LLMErrorsNonempty (llmPOST env body parseErr googleOut openaiOut)) := by
  cases body with
  | none =>
      dsimp only [llmPOST]
      obtain ⟨e, s, heq, hs⟩ := llmCatch_failure parseErr
      constructor
      · rw [heq]
        exact Or.inr ⟨e, rfl, by rcases hs with h | h <;> simp [h]⟩
      · intro hok
        exact llmCatch_error_nonempty hok.1
  | some b =>
      simp only [llmPOST]
      by_cases hp : (!optTruthy b.prompt) = true
      · rw [if_pos hp]
        refine ⟨Or.inr ⟨_, rfl, by decide⟩, fun _ e he => ?_⟩
        have he' : LLMResp.failure "Prompt is required" = LLMResp.failure e := he
        injection he' with h'
        subst h'
        decide
      · rw [if_neg hp]
        by_cases hg : (b.provider == some "google") = true
        · rw [if_pos hg]
          rcases generateWithGoogle_cases env googleOut with ⟨s, hs⟩ | ⟨t, ht, hto⟩
          · rw [hs]
            exact ⟨Or.inl ⟨s, rfl, rfl⟩, fun _ e he => by simp at he⟩
          · rw [ht]
            obtain ⟨e, st, heq, hst⟩ := llmCatch_failure t
            constructor
            · dsimp only
              rw [heq]
              exact Or.inr ⟨e, rfl, by rcases hst with h | h <;> simp [h]⟩
            · intro hok
              exact llmCatch_error_nonempty (hto hok.2.1)
        · rw [if_neg hg]
          by_cases ho : (b.provider == some "openai") = true
          · rw [if_pos ho]
            rcases generateWithOpenAI_cases env openaiOut with ⟨s, hs⟩ | ⟨t, ht, hto⟩
            · rw [hs]
              exact ⟨Or.inl ⟨s, rfl, rfl⟩, fun _ e he => by simp at he⟩
            · rw [ht]
              obtain ⟨e, st, heq, hst⟩ := llmCatch_failure t
              constructor
              · dsimp only
                rw [heq]
                exact Or.inr ⟨e, rfl, by rcases hst with h | h <;> simp [h]⟩
              · intro hok
                exact llmCatch_error_nonempty (hto hok.2.2)
          · rw [if_neg ho]
            refine ⟨Or.inr ⟨_, rfl, by dsimp only; decide⟩, fun _ e he => ?_⟩
            have he' : LLMResp.failure ("Unknown provider: " ++ b.provider.getD "undefined") =
                LLMResp.failure e := he
            injection he' with h'
            subst h'
            exact str_append_ne_empty _ _ (by decide)

/-- Claim C4 (amended): every response of the image-generation endpoint and
of the LLM endpoint has the uniform provider shape — `{success:true,
image}` (resp. `{success:true, text}`) with HTTP 200, or `{success:false,
error}` with a non-200 status — for every backing provider and every input
including thrown exceptions; and the error string is non-empty provided
every thrown exception that is a JS `Error` carries a non-empty message
(without that proviso the routes' top-level catch handlers pass an empty
`Error` message through verbatim, as the counterexample shows). -/
theorem provider_responses_uniform_shape :
    (∀ (env : GenEnv) (body : Option GenerateRequest) (parseErr : Thrown)
        (gem : GeminiOutcome) (flux gpt : FetchOutcome) (url : UrlOutcome),
      GenUniform (generatePOST env body parseErr gem flux gpt url)) ∧
    (∀ (env : LLMEnv) (body : Option LLMRequest) (parseErr : Thrown)
        (googleOut : GoogleOutcome) (openaiOut : OpenAIOutcome),
      LLMUniform (llmPOST env body parseErr googleOut openaiOut)) ∧
    (∀ (env : GenEnv) (body : Option GenerateRequest) (parseErr : Thrown)
        (gem : GeminiOutcome) (flux gpt : FetchOutcome) (url : UrlOutcome),
      ThrownMsgOK parseErr → GeminiOutcomeOK gem →
      GenErrorsNonempty (generatePOST env body parseErr gem flux gpt url)) ∧
    (∀ (env : LLMEnv) (body : Option LLMRequest) (parseErr : Thrown)
        (googleOut : GoogleOutcome) (openaiOut : OpenAIOutcome),
      ThrownMsgOK parseErr → GoogleOutcomeOK googleOut → OpenAIOutcomeOK openaiOut →
      LLMErrorsNonempty (llmPOST env body parseErr googleOut openaiOut)) :=
  ⟨fun env body parseErr gem flux gpt url =>
      (generatePOST_master env body parseErr gem flux gpt url).1,
    fun env body parseErr googleOut openaiOut =>
      (llmPOST_master env body parseErr googleOut openaiOut).1,
    fun env body parseErr gem flux gpt url hp hg =>
      (generatePOST_master env body parseErr gem flux gpt url).2 ⟨hp, hg⟩,
    fun env body parseErr googleOut openaiOut hp hg ho =>
      (llmPOST_master env body parseErr googleOut openaiOut).2 ⟨hp, hg, ho⟩⟩

/-- Witness for C4's hypothesised conjuncts at a concrete request whose
thrown values all carry non-empty messages. -/
theorem provider_responses_uniform_shape_witness :
    (ThrownMsgOK (mkError "parse failed") ∧
      GeminiOutcomeOK (GeminiOutcome.thrown (mkError "boom")) ∧
      GenErrorsNonempty (generatePOST (GenEnv.mk (some "k") none none)
        (some (GenerateRequest.mk (some ["img"]) (some "p") none none none false
          none none none))
        (mkError "parse failed") (GeminiOutcome.thrown (mkError "boom"))
        (FetchOutcome.thrown (mkError "x")) (FetchOutcome.thrown (mkError "x"))
        (UrlOutcome.thrown (mkError "x")))) ∧
    (GoogleOutcomeOK (GoogleOutcome.thrown (mkError "429 quota")) ∧
      OpenAIOutcomeOK (OpenAIOutcome.resp 200 none (some "t")) ∧
      LLMErrorsNonempty (llmPOST (LLMEnv.mk (some "k") (some "k2"))
        (some (LLMRequest.mk (some "hi") none (some "google") none none none))
        (mkError "parse failed") (GoogleOutcome.thrown (mkError "429 quota"))
        (OpenAIOutcome.resp 200 none (some "t")))) :=
  ⟨⟨fun _ => by decide, fun _ => by decide,
    provider_responses_uniform_shape.2.2.1 _ _ _ _ _ _ _
      (fun _ => by decide) (fun _ => by decide)⟩,
   ⟨fun _ => by decide, trivial,
    provider_responses_uniform_shape.2.2.2 _ _ _ _ _
      (fun _ => by decide) (fun _ => by decide) trivial⟩⟩

/-- Counterexample for C4 as stated: when the Google SDK throws an `Error`
whose message is the empty string, the LLM route answers `success:false`
with HTTP 500 and an **empty** error string, so the "non-empty error
string" part of the claim fails at this input. -/
theorem llm_empty_error_string_counterexample :
    llmPOST (LLMEnv.mk (some "k") none)
      (some (LLMRequest.mk (some "hi") none (some "google") none none none))
      (mkError "parse failed")
      (GoogleOutcome.thrown (Thrown.mk true true "" none none none none none none))
      (OpenAIOutcome.resp 200 none (some "t")) =
    { resp := LLMResp.failure "", status := 500 } := by
  decide

/-- A non-empty string is truthy. -/
theorem optTruthy_some_of_ne {s : String} (h : s ≠ "") : optTruthy (some s) = true := by
  simp only [optTruthy, Bool.not_eq_true']
  rw [Bool.eq_false_iff]
  intro hc
  exact h ((String.isEmpty_iff s).mp hc)

/-- Alphabet coherence: decoding the character of a sextet recovers it. -/
theorem b64idx_b64chr {s : Nat} (h : s < 64) : b64idx (b64chr s) = some s := by
  have hall : ∀ t : Fin 64, b64idx (b64chr t.val) = some t.val := by decide
  exact hall ⟨s, h⟩

/-- No alphabet character is the padding character. -/
theorem b64chr_ne_pad {s : Nat} (h : s < 64) : b64chr s ≠ '=' := by
  have hall : ∀ t : Fin 64, b64chr t.val ≠ '=' := by decide
  exact hall ⟨s, h⟩

/-- Round trip: decoding an encoded byte list recovers it. -/
theorem b64_roundtrip : ∀ bs : List Nat, (∀ b ∈ bs, b < 256) →
    b64decodeList (b64encodeList bs) = bs := by
  intro bs
  induction bs using b64encodeList.induct with
  | case1 b1 b2 b3 rest ih =>
      intro hb
      have h1 : b1 < 256 := hb b1 (by simp)
      have h2 : b2 < 256 := hb b2 (by simp)
      have h3 : b3 < 256 := hb b3 (by simp)
      have e1 : b64idx (b64chr (b1 / 4)) = some (b1 / 4) := b64idx_b64chr (by omega)
      have e2 : b64idx (b64chr ((b1 % 4) * 16 + b2 / 16)) =
          some ((b1 % 4) * 16 + b2 / 16) := b64idx_b64chr (by omega)
      have e3 : b64idx (b64chr ((b2 % 16) * 4 + b3 / 64)) =
          some ((b2 % 16) * 4 + b3 / 64) := b64idx_b64chr (by omega)
      have e4 : b64idx (b64chr (b3 % 64)) = some (b3 % 64) := b64idx_b64chr (by omega)
      have n3 : b64chr ((b2 % 16) * 4 + b3 / 64) ≠ '=' := b64chr_ne_pad (by omega)
      have n4 : b64chr (b3 % 64) ≠ '=' := b64chr_ne_pad (by omega)
      simp only [b64encodeList, b64decodeList, e1, e2, e3, e4, if_neg n3, if_neg n4,
        ih (fun b hbm => hb b (by simp [hbm])), List.cons.injEq]
      refine ⟨by omega, by omega, by omega, trivial⟩
  | case2 b1 b2 =>
      intro hb
      have h1 : b1 < 256 := hb b1 (by simp)
      have h2 : b2 < 256 := hb b2 (by simp)
      have e1 : b64idx (b64chr (b1 / 4)) = some (b1 / 4) := b64idx_b64chr (by omega)
      have e2 : b64idx (b64chr ((b1 % 4) * 16 + b2 / 16)) =
          some ((b1 % 4) * 16 + b2 / 16) := b64idx_b64chr (by omega)
      have e3 : b64idx (b64chr ((b2 % 16) * 4)) = some ((b2 % 16) * 4) :=
        b64idx_b64chr (by omega)
      have n3 : b64chr ((b2 % 16) * 4) ≠ '=' := b64chr_ne_pad (by omega)
      simp only [b64encodeList, b64decodeList, e1, e2, e3, if_neg n3, eq_self_iff_true,
        if_true, List.cons.injEq]
      refine ⟨by omega, by omega, trivial⟩
  | case3 b1 =>
      intro hb
      have h1 : b1 < 256 := hb b1 (by simp)
      have e1 : b64idx (b64chr (b1 / 4)) = some (b1 / 4) := b64idx_b64chr (by omega)
      have e2 : b64idx (b64chr ((b1 % 4) * 16)) = some ((b1 % 4) * 16) :=
        b64idx_b64chr (by omega)
      simp only [b64encodeList, b64decodeList, e1, e2, eq_self_iff_true, if_true,
        List.cons.injEq]
      refine ⟨by omega, trivial⟩
  | case4 =>
      intro _
      rfl

/-- The data-URL header of a PNG data URL is stripped exactly. -/
theorem stripImageHeader_png (d : String) :
    stripImageHeader ("data:image/png;base64," ++ d) = d := by
  cases d with
  | mk data => rfl

/-- Updating an entry by key, then searching that key, finds the update. -/
theorem find?_set_map (l : List (String × List Nat)) (p : String) (v : List Nat) :
    (l.map (fun kv => if kv.1 == p then (p, v) else kv)).find? (fun kv => kv.1 == p) =
      some (p, v) ∨
    (l.map (fun kv => if kv.1 == p then (p, v) else kv)).find? (fun kv => kv.1 == p) =
      none := by
  induction l with
  | nil => exact Or.inr rfl
  | cons kv rest ih =>
      by_cases hk : (kv.1 == p) = true
      · refine Or.inl ?_
        simp only [List.map_cons, if_pos hk]
        exact List.find?_cons_of_pos _ (by simp)
      · simp only [List.map_cons, if_neg hk]
        rw [List.find?_cons_of_neg _ (by simpa using hk)]
        exact ih

/-- Searching for a key after appending that key's entry at the tail of a
key-free list finds it. -/
theorem find?_append_missing (l : List (String × List Nat)) (p : String) (v : List Nat)
    (h : l.find? (fun kv => kv.1 == p) = none) :
    (l ++ [(p, v)]).find? (fun kv => kv.1 == p) = some (p, v) := by
  induction l with
  | nil => simp [List.find?]
  | cons kv rest ih =>
      simp only [List.cons_append, List.find?] at h ⊢
      by_cases hk : (kv.1 == p) = true
      · simp only [hk] at h
        cases h
      · have hk' : (kv.1 == p) = false := by simpa using hk
        simp only [hk'] at h ⊢
        exact ih h

/-- `setFile` leaves the directory set unchanged. -/
theorem setFile_dirs (fs : FileSystem) (p : String) (v : List Nat) :
    (setFile fs p v).dirs = fs.dirs := by
  simp only [setFile]
  split <;> rfl

/-- Reading back a just-written file returns its bytes. -/
theorem getFile_setFile (fs : FileSystem) (p : String) (v : List Nat) :
    getFile (setFile fs p v) p = some v := by
  simp only [setFile]
  split
  · rename_i hsome
    simp only [getFile]
    rcases find?_set_map fs.files p v with hf | hf
    · rw [hf]; rfl
    · exfalso
      rcases Option.isSome_iff_exists.mp hsome with ⟨kv, hkv⟩
      have hpk := List.find?_some hkv
      have hmem := List.mem_of_find?_eq_some hkv
      have : (p, v) ∈ fs.files.map (fun kv => if kv.1 == p then (p, v) else kv) :=
        List.mem_map.mpr ⟨kv, hmem, by rw [if_pos hpk]⟩
      rw [List.find?_eq_none] at hf
      exact hf (p, v) this (by simp)
  · rename_i hnone
    simp only [getFile]
    have hn : fs.files.find? (fun kv => kv.1 == p) = none := by
      rw [← Option.not_isSome_iff_eq_none]
      simpa using hnone
    rw [find?_append_missing fs.files p v hn]
    rfl

/-- Characters do not survive `dropWhile` past the first separator: with no
separator in `xs`, the scan over `xs ++ \'/\' :: ys` stops exactly at the
separator. -/
theorem dropWhile_until_slash (xs ys : List Char) (h : ('/') ∉ xs) :
    List.dropWhile (fun c => decide (c ≠ '/')) (xs ++ '/' :: ys) = '/' :: ys := by
  induction xs with
  | nil => simp [List.dropWhile]
  | cons a as ih =>
      have ha : a ≠ '/' := fun hc => h (by simp [hc])
      simp only [List.cons_append, List.dropWhile]
      rw [show (decide (a ≠ '/')) = true by simp [ha]]
      exact ih (fun hc => h (List.mem_cons_of_mem _ hc))

/-- The parent directory of `dir/<name>` is `dir` when the name carries no
path separator. -/
theorem parentDir_pathJoin (dir name : String) (h : ('/') ∉ name.toList) :
    parentDir (pathJoin dir name) = dir := by
  have h' : ('/') ∉ name.data.reverse := fun hc => h (List.mem_reverse.mp hc)
  have hdata : (pathJoin dir name).toList = (dir.data ++ ['/']) ++ name.data := rfl
  simp only [parentDir, hdata, List.reverse_append, List.reverse_cons, List.reverse_nil,
    List.nil_append, List.append_assoc, List.singleton_append]
  rw [dropWhile_until_slash _ _ h']
  simp only [List.reverse_reverse]

/-- Writing `dir/<name>` for a separator-free name into an existing
directory succeeds. -/
theorem writeFile_pathJoin (fs : FileSystem) (dir name : String) (bs : List Nat)
    (hdir : fs.dirs.contains dir = true) (h : ('/') ∉ name.toList) :
    writeFile fs (pathJoin dir name) bs = some (setFile fs (pathJoin dir name) bs) := by
  have hmem : dir ∈ fs.dirs := by simpa using hdir
  simp [writeFile, parentDir_pathJoin dir name h, hmem]

/-- The modelled write failure is live: a non-empty imageId containing a
path separator into a missing subdirectory makes the save route answer 500
with the thrown ENOENT message and leave the file system unchanged. -/
theorem saveGeneration_missing_subdir_500 :
    saveGeneration (FileSystem.mk ["/g"] [])
      (SaveRequest.mk (some "/g") (some "data:image/png;base64,AQID") none (some "a/b"))
      "2026-10-12T00-00-00" =
    { resp := SaveResp.failure (writeFileError "/g/a/b.png"), status := 500,
      fs := FileSystem.mk ["/g"] [] } := by
  rfl

/-- Claim C6 (amended): for every existing directory path, every non-empty
imageId free of path separators, and every canonical base64 payload, saving
`data:image/png;base64,<payload>` through the save-generation route and
then loading the same directoryPath/imageId through the load-generation
route succeeds and returns exactly the original data URL.  (The original
claim's "every imageId" fails for the empty imageId — falsy in the routes'
truthiness checks, see the counterexample — and for an imageId whose path
separator points into a missing subdirectory, where `fs.writeFile` throws
and the save route answers 500, see `saveGeneration_missing_subdir_500`.) -/
theorem save_then_load_roundtrip (fs : FileSystem) (dir imageId : String) (bs : List Nat)
    (prompt : Option String) (timestamp : String)
    (hdir : fs.dirs.contains dir = true) (hdirne : dir ≠ "") (hid : imageId ≠ "")
    (hsep : ('/') ∉ imageId.toList) (hbs : ∀ b ∈ bs, b < 256) :
    (saveGeneration fs (SaveRequest.mk (some dir)
        (some ("data:image/png;base64," ++ b64encode bs)) prompt (some imageId))
      timestamp).status = 200 ∧
    loadGeneration (saveGeneration fs (SaveRequest.mk (some dir)
        (some ("data:image/png;base64," ++ b64encode bs)) prompt (some imageId))
      timestamp).fs (LoadRequest.mk (some dir) (some imageId)) =
    { resp := LoadResp.success ("data:image/png;base64," ++ b64encode bs),
      status := 200 } := by
  have htdir : optTruthy (some dir) = true := optTruthy_some_of_ne hdirne
  have htimg : optTruthy (some ("data:image/png;base64," ++ b64encode bs)) = true :=
    optTruthy_some_of_ne (str_append_ne_empty _ _ (by decide))
  have htid : optTruthy (some imageId) = true := optTruthy_some_of_ne hid
  have hdec : b64decode (b64encode bs) = bs := by
    have ht : (b64encode bs).toList = b64encodeList bs := rfl
    simp only [b64decode, ht]
    exact b64_roundtrip bs hbs
  have hsep2 : ('/') ∉ (imageId ++ ".png").toList := by
    intro hc
    have hc' : ('/') ∈ imageId.data ∨ ('/') ∈ ".png".toList := by
      have he : (imageId ++ ".png").toList = imageId.data ++ ".png".toList := rfl
      rw [he] at hc
      exact List.mem_append.mp hc
    rcases hc' with hc' | hc'
    · exact hsep hc'
    · exact absurd hc' (by decide)
  have hw : writeFile fs (pathJoin dir (imageId ++ ".png")) bs =
      some (setFile fs (pathJoin dir (imageId ++ ".png")) bs) :=
    writeFile_pathJoin fs dir (imageId ++ ".png") bs hdir hsep2
  have hsave : saveGeneration fs (SaveRequest.mk (some dir)
      (some ("data:image/png;base64," ++ b64encode bs)) prompt (some imageId)) timestamp =
      { resp := SaveResp.success (pathJoin dir (imageId ++ ".png")) (imageId ++ ".png")
          imageId,
        status := 200,
        fs := setFile fs (pathJoin dir (imageId ++ ".png")) bs } := by
    have hmem : dir ∈ fs.dirs := by simpa using hdir
    simp [saveGeneration, htdir, htimg, htid, hdir, hmem, stripImageHeader_png, hdec, hw]
  have hload : loadGeneration (setFile fs (pathJoin dir (imageId ++ ".png")) bs)
      (LoadRequest.mk (some dir) (some imageId)) =
      { resp := LoadResp.success ("data:image/png;base64," ++ b64encode bs),
        status := 200 } := by
    simp only [loadGeneration, Option.getD, htdir, htid, Bool.not_true, Bool.or_self,
      Bool.false_eq_true, if_false, setFile_dirs, hdir]
    rw [getFile_setFile]
  refine ⟨by rw [hsave], ?_⟩
  rw [hsave]
  exact hload

/-- Counterexample for C6 as stated: with the **empty** imageId the save
succeeds (it falls back to the timestamp-based filename, whose write into
the existing directory succeeds), but loading the same directoryPath and
imageId fails the load route's required-fields check, so the round trip
does not return the image. -/
theorem save_then_load_empty_imageId_counterexample :
    (saveGeneration (FileSystem.mk ["/g"] [])
      (SaveRequest.mk (some "/g") (some "data:image/png;base64,AQID") none (some ""))
      "2026-10-12T00-00-00").status = 200 ∧
    loadGeneration (saveGeneration (FileSystem.mk ["/g"] [])
      (SaveRequest.mk (some "/g") (some "data:image/png;base64,AQID") none (some ""))
      "2026-10-12T00-00-00").fs (LoadRequest.mk (some "/g") (some "")) =
    { resp := LoadResp.failure "Missing required fields", status := 400 } := by
  constructor
  · rfl
  · rfl

/-- Witness for C6's amended round trip at a concrete directory, id and
payload (`AQID` is the canonical encoding of bytes 1, 2, 3). -/
theorem save_then_load_roundtrip_witness :
    ((FileSystem.mk ["/g"] []).dirs.contains "/g" = true ∧ "/g" ≠ "" ∧ "img1" ≠ "" ∧
      ('/') ∉ "img1".toList ∧ ∀ b ∈ [1, 2, 3], b < 256) ∧
    ((saveGeneration (FileSystem.mk ["/g"] []) (SaveRequest.mk (some "/g")
        (some ("data:image/png;base64," ++ b64encode [1, 2, 3])) none (some "img1"))
      "2026-10-12T00-00-00").status = 200 ∧
    loadGeneration (saveGeneration (FileSystem.mk ["/g"] []) (SaveRequest.mk (some "/g")
        (some ("data:image/png;base64," ++ b64encode [1, 2, 3])) none (some "img1"))
      "2026-10-12T00-00-00").fs (LoadRequest.mk (some "/g") (some "img1")) =
    { resp := LoadResp.success ("data:image/png;base64," ++ b64encode [1, 2, 3]),
      status := 200 }) :=
  ⟨⟨by decide, by decide, by decide, by decide, by decide⟩,
    save_then_load_roundtrip (FileSystem.mk ["/g"] []) "/g" "img1" [1, 2, 3] none
      "2026-10-12T00-00-00" (by decide) (by decide) (by decide) (by decide) (by decide)⟩

end NodeBanana
